import Mathlib

/-!
# ProductInventory: the transaction-logging workflow

A shallow embedding of `src/pages/Admin/ProductInventory.js`.

* React state (`useState` cells) is one record, `State`; every handler is a
  function from the state it closes over to the state after its setters ran.
* A handler that `await`s the network takes the outcome of every request it
  may issue as an argument (`SubmitEnv`) and returns, next to the new state,
  the alerts it raised and the requests it issued, in issue order.
* JavaScript numbers held in the form are finite (`parseFloat(..) || 0` maps
  `NaN` to `0`), so quantities are rationals: the comparisons `< 0` and
  `=== 0` of the source agree with the ones on `ℚ`.
* `console.log` / `console.error` output is not part of the embedding.
-/

namespace ProductInventory

/-! ## Data model -/

/-- One row of the transaction table (the fields the table renders, lines 602-645). -/
structure TransactionLog where
  date : String
  particulars : String
  inward : ℚ
  outward : ℚ
  balance : ℚ
  remarks : Option String
  shift : Option String
  workerName : Option String
  batchNumber : Option String
  actualProduction : Option ℚ
  rejection : Option ℚ
  machineNo : Option String
  supervisedBy : Option String
  timeStart : Option String
  timeEnd : Option String
  curingTemp : Option String
  reworkScrap : Option ℚ
  deriving DecidableEq, Repr

/-- An element of `product.formulations`: the callback of line 143 reads
`formula.formulaName` and `formula.fillWeight`. -/
structure Formulation where
  formulaName : String
  fillWeight : ℚ
  deriving DecidableEq, Repr

/-- An element of the list served by `GET /api/products`. -/
structure Product where
  _id : String
  articleName : String
  manufacturing : String
  deriving DecidableEq, Repr

/-- The `transaction` state cell (lines 11-27).  The four fields written by
every `setTransaction` call of the file are always present; the
process-specific ones are properties that an object may lack (`none` is
JavaScript `undefined`). -/
structure Transaction where
  particulars : String
  inward : ℚ
  outward : ℚ
  remarks : String
  shift : Option String
  workerName : Option String
  batchNumber : Option String
  actualProduction : Option ℚ
  rejection : Option ℚ
  machineNo : Option String
  supervisedBy : Option String
  timeStart : Option String
  timeEnd : Option String
  curingTemp : Option String
  reworkScrap : Option ℚ
  deriving DecidableEq, Repr

/-- The initial value of the `transaction` cell (lines 11-27). -/
def initialTransaction : Transaction :=
  { particulars := "", inward := 0, outward := 0, remarks := "",
    shift := some "", workerName := some "", batchNumber := some "",
    actualProduction := some 0, rejection := some 0, machineNo := some "",
    supervisedBy := some "", timeStart := some "", timeEnd := some "",
    curingTemp := some "", reworkScrap := some 0 }

/-- The object literal of line 178,
`{ particulars: "", inward: 0, outward: 0, remarks: "" }`: it has four
properties and no others. -/
def resetTransaction : Transaction :=
  { particulars := "", inward := 0, outward := 0, remarks := "",
    shift := none, workerName := none, batchNumber := none,
    actualProduction := none, rejection := none, machineNo := none,
    supervisedBy := none, timeStart := none, timeEnd := none,
    curingTemp := none, reworkScrap := none }

/-- The component state: the nine `useState` cells of lines 6-30. -/
structure State where
  products : List Product
  filteredProducts : List Product
  selectedProductId : Option String
  selectedProduct : Option Product
  logs : List TransactionLog
  transaction : Transaction
  loading : Bool
  errorMessage : String
  searchQuery : String
  deriving DecidableEq, Repr

/-- The state of the first render (initial values of lines 6-30). -/
def initialState : State :=
  { products := [], filteredProducts := [], selectedProductId := none,
    selectedProduct := none, logs := [], transaction := initialTransaction,
    loading := false, errorMessage := "", searchQuery := "" }

/-! ## JSON values and requests -/

/-- A JSON property value, as far as the request bodies built here need. -/
inductive JVal where
  | str (s : String)
  | num (q : ℚ)
  deriving DecidableEq, Repr

/-- An object literal: its properties in the order they are written. -/
abbrev JObj := List (String × JVal)

/-- The property names of an object. -/
def JObj.keys (o : JObj) : List String := o.map Prod.fst

/-- Property read `o[k]`: `none` when the object has no such property. -/
def JObj.get (o : JObj) (k : String) : Option JVal := o.lookup k

/-- The `fetch` calls of the file. -/
inductive Request where
  /-- Request `GET /api/products` (line 40). -/
  | getProducts
  /-- Request `GET /api/products/{id}/logs` (line 55). -/
  | getLogs (productId : String)
  /-- Request `GET /api/products/{id}` (lines 58 and 120). -/
  | getProduct (productId : String)
  /-- Request `POST /api/products/{id}/log` with `JSON.stringify(transaction)` (line 124). -/
  | postLog (productId : String) (body : Transaction)
  /-- Request `POST /api/formulas/{formulaId}/logformulafromproduct` with
  `JSON.stringify(formulaTransaction)` (line 157). -/
  | postFormula (formulaId : String) (body : JObj)
  deriving DecidableEq, Repr

/-- What `await response.json()` gives: the parser throws or a value comes back. -/
inductive Body (α : Type) where
  | parseError (message : String)
  | json (value : α)
  deriving DecidableEq, Repr

/-- What `await fetch(..)` gives: the promise rejects (network failure) or a
response arrives, with its `ok` flag and its body. -/
inductive FetchResult (α : Type) where
  | networkError (message : String)
  | response (ok : Bool) (body : Body α)
  deriving DecidableEq, Repr

/-- The `product` property of the detail response, as far as it is read
(`formulations` at line 142, `transactionLogs` at line 64). -/
structure ProductDetail where
  formulations : Option (List Formulation)
  transactionLogs : Option (List TransactionLog)
  deriving DecidableEq, Repr

/-- The body of `GET /api/products/{id}`, `pdata`.  The source never looks at
`proddata.ok`, so this is the body of any answer, also of a 404: `product` is
`none` when the body has no such property, and reading a property of it then
throws a `TypeError` (lines 64 and 142). -/
structure PData where
  product : Option ProductDetail
  deriving DecidableEq, Repr

/-- The list line 142 goes on with when it does not throw,
`pdata.product.formulations || []`; a body without `product` gets to no
formulation. -/
def PData.formulations (pdata : PData) : List Formulation :=
  match pdata.product with
  | none => []
  | some product => product.formulations.getD []

/-- The body of the response to the primary POST, read as `updatedProduct.logs`
(line 140) when `ok` and as `errorDetails.message` (line 136) when not. -/
structure PostBody where
  logs : Option (List TransactionLog)
  message : Option String
  deriving DecidableEq, Repr

/-- The body of a failed cascade response, read as `errorDetails.message` (line 168). -/
structure ErrorBody where
  message : Option String
  deriving DecidableEq, Repr

/-- Everything the outside world decides during one `handleLogTransaction`. -/
structure SubmitEnv where
  /-- Outcome of `GET /api/products/{id}` (lines 120-123). -/
  detail : FetchResult PData
  /-- Outcome of the primary POST (lines 124-139). -/
  primary : FetchResult PostBody
  /-- Outcome of the cascade request issued for the formulation at each index. -/
  cascade : Nat → FetchResult ErrorBody
  /-- The message the JavaScript engine gives the `TypeError` it throws when
  line 142 reads `formulations` of a missing `pdata.product`. -/
  typeErrorMessage : String

/-! ## JavaScript operators -/

/-- JavaScript `a || b` on strings: the empty string is falsy. -/
def jsOr (a b : String) : String := if a = "" then b else a

/-- JavaScript `a || b` where `a` may be `undefined`. -/
def jsOrUndef (a : Option String) (b : String) : String :=
  match a with
  | none => b
  | some x => jsOr x b

/-- JavaScript `!selectedProductId`: `null` and the empty string are falsy. -/
def noSelection (selectedProductId : Option String) : Bool :=
  match selectedProductId with
  | none => true
  | some productId => productId = ""

/-! ## handleLogTransaction (lines 93-185) -/

/-- The object literal `formulaTransaction` of lines 147-154. -/
def formulaTransaction (transaction : Transaction) (formula : Formulation) : JObj :=
  [("orderNo", JVal.str transaction.particulars),
   ("inward", JVal.num transaction.inward),
   ("outward", JVal.num transaction.outward),
   ("particulars", JVal.str "deducted automatically."),
   ("fillWeight", JVal.num formula.fillWeight)]

/-- The request the callback of line 143 issues for one formulation (lines 157-164). -/
def formulaRequest (transaction : Transaction) (formula : Formulation) : Request :=
  Request.postFormula formula.formulaName (formulaTransaction transaction formula)

/-- The inner `try` of the callback (lines 156-169): `Except.error m` when an
error with message `m` is thrown inside it. -/
def formulaAttempt (formula : Formulation) (r : FetchResult ErrorBody) : Except String Unit :=
  match r with
  | FetchResult.networkError m => Except.error m
  | FetchResult.response ok body =>
    if !ok then
      match body with
      | Body.parseError m => Except.error m
      | Body.json errorDetails =>
        Except.error ("Error logging formula " ++ formula.formulaName ++ ": "
          ++ jsOrUndef errorDetails.message "Unknown error")
    else Except.ok ()

/-- How the promise of one callback settles (lines 143-174): `Except.ok v` is
fulfilment with `v` (`none` is `undefined`, the value of a callback that
falls off its end), `Except.error m` would be rejection. -/
def formulaPromise (formula : Formulation) (r : FetchResult ErrorBody) :
    Except String (Option String) :=
  match formulaAttempt formula r with
  | Except.ok () => Except.ok none
  | Except.error m => Except.ok (some ("Formula " ++ formula.formulaName ++ " failed: " ++ m))

/-- The array `formulaPromises`: callback `i` runs on `formulations[i]`, its
request met by `cascade i`.  `i` is the index of the head of the list. -/
def formulaPromises (cascade : Nat → FetchResult ErrorBody) :
    Nat → List Formulation → List (Except String (Option String))
  | _, [] => []
  | i, formula :: rest => formulaPromise formula (cascade i) :: formulaPromises cascade (i + 1) rest

/-- Join `await Promise.all(ps)`: rejects with the first rejection, otherwise
fulfils with all the values, in order. -/
def promiseAll {α : Type} : List (Except String α) → Except String (List α)
  | [] => Except.ok []
  | Except.error m :: _ => Except.error m
  | Except.ok v :: rest =>
    match promiseAll rest with
    | Except.error m => Except.error m
    | Except.ok vs => Except.ok (v :: vs)

/-- Where the `try` block of lines 119-178 stops. -/
structure TryResult where
  /-- The state after the setters that ran. -/
  state : State
  /-- The requests issued, in issue order. -/
  requests : List Request
  /-- The message of the error thrown out of the block, if one was. -/
  thrown : Option String
  /-- The values `Promise.all` fulfilled with, when line 176 was passed. -/
  settled : List (Option String)
  deriving Repr

/-- The `try` block of lines 119-178, run from the state `s` that lines 116-117
left, for the selected id `productId` and the `transaction` of the render. -/
def tryBlock (productId : String) (transaction : Transaction) (s : State) (env : SubmitEnv) :
    TryResult :=
  let r1 := [Request.getProduct productId]
  match env.detail with
  | FetchResult.networkError m => { state := s, requests := r1, thrown := some m, settled := [] }
  | FetchResult.response _ (Body.parseError m) =>
    { state := s, requests := r1, thrown := some m, settled := [] }
  | FetchResult.response _ (Body.json pdata) =>
    let r2 := r1 ++ [Request.postLog productId transaction]
    match env.primary with
    | FetchResult.networkError m => { state := s, requests := r2, thrown := some m, settled := [] }
    | FetchResult.response false (Body.parseError m) =>
      { state := s, requests := r2, thrown := some m, settled := [] }
    | FetchResult.response false (Body.json errorDetails) =>
      { state := s, requests := r2,
        thrown := some (jsOrUndef errorDetails.message "Failed to log product transaction."),
        settled := [] }
    | FetchResult.response true (Body.parseError m) =>
      { state := s, requests := r2, thrown := some m, settled := [] }
    | FetchResult.response true (Body.json updatedProduct) =>
      let s2 := { s with logs := updatedProduct.logs.getD [] }
      match pdata.product with
      | none =>
        { state := s2, requests := r2, thrown := some env.typeErrorMessage, settled := [] }
      | some product =>
        let formulations := product.formulations.getD []
        let r3 := r2 ++ formulations.map (formulaRequest transaction)
        match promiseAll (formulaPromises env.cascade 0 formulations) with
        | Except.error m => { state := s2, requests := r3, thrown := some m, settled := [] }
        | Except.ok vs =>
          { state := { s2 with transaction := resetTransaction }, requests := r3,
            thrown := none, settled := vs }

/-- What one run of a handler did. -/
structure Run where
  /-- The state after the handler completed. -/
  state : State
  /-- The `alert` boxes shown, in order. -/
  alerts : List String
  /-- The network requests issued, in issue order. -/
  requests : List Request
  /-- The values `Promise.all` fulfilled with, when line 176 was passed. -/
  settled : List (Option String)
  deriving Repr

/-- An early `return` after `alert(msg)`: nothing else happens. -/
def rejectWith (s : State) (msg : String) : Run :=
  { state := s, alerts := [msg], requests := [], settled := [] }

/-- Lines 116-184, the part of `handleLogTransaction` behind the four checks:
the two setters, the `try` block, `catch` (line 181) and `finally` (line 183). -/
def submitBody (s : State) (env : SubmitEnv) : Run :=
  let s1 := { s with loading := true, errorMessage := "" }
  let t := tryBlock (s.selectedProductId.getD "") s.transaction s1 env
  let caught :=
    match t.thrown with
    | none => t.state
    | some m => { t.state with errorMessage := jsOr m "Failed to log transaction." }
  { state := { caught with loading := false }, alerts := [], requests := t.requests,
    settled := t.settled }

/-- The handler `handleLogTransaction` (lines 93-185), run in the render whose state is `s`. -/
def handleLogTransaction (s : State) (env : SubmitEnv) : Run :=
  if noSelection s.selectedProductId then
    rejectWith s "Please select a product first."
  else if s.transaction.inward < 0 || s.transaction.outward < 0 then
    rejectWith s "Inward and outward quantities cannot be negative."
  else if s.transaction.inward = 0 && s.transaction.outward = 0 then
    rejectWith s "Both inward and outward quantities cannot be zero."
  else if s.transaction.particulars = "" then
    rejectWith s "Particulars are required."
  else
    submitBody s env

/-- Whether a request is a cascade request (the POST of line 157). -/
def Request.isCascade : Request → Bool
  | Request.postFormula _ _ => true
  | _ => false

/-- The cascade requests of a run, in issue order. -/
def Run.cascades (r : Run) : List Request := r.requests.filter Request.isCascade

/-! ## fetchProducts, fetchLogs, handleProductSelection, handleSearch (lines 37-91) -/

/-- How `fetchProducts` (lines 37-50) leaves the state, once the request of
line 40 has met `r`: the setters of lines 42-44, or of lines 47-48 when
`fetch` or `response.json()` throws. -/
def fetchProductsSettle (r : FetchResult (List Product)) (cur : State) : State :=
  match r with
  | FetchResult.response _ (Body.json data) =>
    { cur with products := data, filteredProducts := data, loading := false }
  | _ => { cur with errorMessage := "Failed to load products.", loading := false }

/-- Everything the outside world decides during one `fetchLogs`. -/
structure LogsEnv where
  /-- Outcome of `GET /api/products/{id}/logs` (line 55) and of `response.json()` (line 62). -/
  logs : FetchResult (List TransactionLog)
  /-- Outcome of `GET /api/products/{id}` (line 58) and of `proddata.json()` (line 61). -/
  detail : FetchResult PData

/-- The value the `try` block of `fetchLogs` (lines 54-65) hands to `setLogs`,
or `none` when one of its four `await`s throws. -/
def fetchLogsResult (env : LogsEnv) : Option (List TransactionLog) :=
  match env.logs with
  | FetchResult.networkError _ => none
  | FetchResult.response _ logsBody =>
    match env.detail with
    | FetchResult.networkError _ => none
    | FetchResult.response _ (Body.parseError _) => none
    | FetchResult.response _ (Body.json pdata) =>
      match logsBody with
      | Body.parseError _ => none
      | Body.json _ =>
        match pdata.product with
        | none => none
        | some product => some (product.transactionLogs.getD [])

/-- How `fetchLogs` leaves the state it completes in: lines 64-65, or lines 68-69
when something was thrown. -/
def fetchLogsSettle (env : LogsEnv) (cur : State) : State :=
  match fetchLogsResult env with
  | some logs => { cur with logs := logs, loading := false }
  | none => { cur with errorMessage := "Failed to load transaction logs.", loading := false }

/-- The requests `fetchLogs` issues: the logs request, and the detail request
once the first `await` has returned a response. -/
def fetchLogsRequests (productId : String) (env : LogsEnv) : List Request :=
  match env.logs with
  | FetchResult.networkError _ => [Request.getLogs productId]
  | FetchResult.response _ _ => [Request.getLogs productId, Request.getProduct productId]

/-- The callback `fetchLogs` (lines 52-71), run to completion from state `s`. -/
def fetchLogs (s : State) (productId : String) (env : LogsEnv) : Run :=
  { state := fetchLogsSettle env { s with loading := true }, alerts := [],
    requests := fetchLogsRequests productId env, settled := [] }

/-- The `fetchLogs` of the source with the logs request (lines 55-57) and the
read of its body (line 62) taken out: what the component would do had the
call not been made. -/
def fetchLogsDetailOnly (s : State) (detail : FetchResult PData) : State :=
  match detail with
  | FetchResult.response _ (Body.json pdata) =>
    match pdata.product with
    | some product => { s with logs := product.transactionLogs.getD [], loading := false }
    | none => { s with errorMessage := "Failed to load transaction logs.", loading := false }
  | _ => { s with errorMessage := "Failed to load transaction logs.", loading := false }

/-- The synchronous part of `handleProductSelection` (lines 74-77): the two
selection setters, and the `setLoading(true)` with which `fetchLogs` starts. -/
def selectStart (s : State) (productId : String) : State :=
  { s with selectedProductId := some productId,
           selectedProduct := s.products.find? (fun product => product._id = productId),
           loading := true }

/-- The handler `handleProductSelection` (lines 73-79), with the `fetchLogs` it
starts run to completion. -/
def handleProductSelection (s : State) (productId : String) (env : LogsEnv) : Run :=
  fetchLogs
    { s with selectedProductId := some productId,
             selectedProduct := s.products.find? (fun product => product._id = productId) }
    productId env

/-- The built-in `String.prototype.toLowerCase`.  The embedding relies on one
fact about it: the empty string is its own lower-casing. -/
structure LowerCase where
  toLowerCase : String → String
  empty : toLowerCase "" = ""

/-- The built-in `String.prototype.includes`: `sub` occurs in `s` as a
contiguous run of characters. -/
def includes (s sub : String) : Bool := decide (sub.data <:+: s.data)

/-- The callback handed to `products.filter` at lines 86-88. -/
def matchesQuery (lc : LowerCase) (value : String) (product : Product) : Bool :=
  includes (lc.toLowerCase product.articleName) (lc.toLowerCase value)

/-- The handler `handleSearch` (lines 81-91), for `e.target.value = value`. -/
def handleSearch (lc : LowerCase) (s : State) (value : String) : State :=
  if value = "" then
    { s with searchQuery := value, filteredProducts := s.products }
  else
    { s with searchQuery := value,
             filteredProducts := s.products.filter (matchesQuery lc value) }

/-- A lower-casing for the sample searches, not the built-in: it lowers the
letters A-Z and leaves every other character as it is, which agrees with
`toLowerCase` on strings of ASCII characters only.  The theorems on
`handleSearch` hold for every `LowerCase` and do not use this one. -/
def asciiLowerCase : LowerCase :=
  { toLowerCase := fun s => String.mk (s.data.map Char.toLower), empty := rfl }

/-! ## Submit as start and completion -/

/-- The message of the `alert` with which lines 96-114 stop the handler, if
one of the four checks fires. -/
def validationAlert (s : State) : Option String :=
  if noSelection s.selectedProductId then
    some "Please select a product first."
  else if s.transaction.inward < 0 || s.transaction.outward < 0 then
    some "Inward and outward quantities cannot be negative."
  else if s.transaction.inward = 0 && s.transaction.outward = 0 then
    some "Both inward and outward quantities cannot be zero."
  else if s.transaction.particulars = "" then
    some "Particulars are required."
  else
    none

/-- Lines 116-117: the state in which a submission that passed the checks
waits for its first response. -/
def submitStart (s : State) : State := { s with loading := true, errorMessage := "" }

/-- Lines 119-184 as the completion of a submission that captured `productId`
and `transaction` when it started: the setters of the `try` block, of `catch`
and of `finally`, applied to the state `cur` the component is in. -/
def submitSettle (productId : String) (transaction : Transaction) (env : SubmitEnv)
    (cur : State) : State :=
  let t := tryBlock productId transaction cur env
  let caught :=
    match t.thrown with
    | none => t.state
    | some m => { t.state with errorMessage := jsOr m "Failed to log transaction." }
  { caught with loading := false }

/-- Whether a request is the primary POST (line 124). -/
def Request.isPrimary : Request → Bool
  | Request.postLog _ _ => true
  | _ => false

/-! ## The component as a transition system

Handlers that `await` are split into the part that runs when the event is
handled and the completion that runs when the awaited responses are in.  The
completion of one call is taken as a single step. -/

/-- An asynchronous call that has started and not yet completed. -/
inductive Pending where
  /-- Call of `fetchProducts` (lines 37-50), started by the mount effect. -/
  | products
  /-- Call of `fetchLogs` (lines 52-71) for a product id. -/
  | logs (productId : String)
  /-- Call of `handleLogTransaction` that passed line 117, with the
  `selectedProductId` and `transaction` of the render it was started in. -/
  | submit (productId : String) (transaction : Transaction)
  deriving DecidableEq, Repr

/-- Whether a pending call is a submission. -/
def Pending.isSubmit : Pending → Bool
  | Pending.submit _ _ => true
  | _ => false

/-- The component with its calls in flight, and what it has emitted so far. -/
structure Sys where
  /-- The state cells. -/
  ui : State
  /-- The calls in flight. -/
  pending : List Pending
  /-- The requests issued so far, oldest first. -/
  requests : List Request
  /-- The alerts shown so far, oldest first. -/
  alerts : List String

/-- What can happen to the component. -/
inductive Event where
  /-- A click on the button of a product (line 221). -/
  | clickProduct (productId : String)
  /-- A change of the search box (line 200). -/
  | search (lc : LowerCase) (value : String)
  /-- A change of a form field (the `onChange` handlers of lines 245-575), each
  of which stores a new `transaction`. -/
  | edit (transaction : Transaction)
  /-- A submit of the form (line 239). -/
  | submit
  /-- Completion of `fetchProducts`. -/
  | productsSettled (r : FetchResult (List Product))
  /-- Completion of a `fetchLogs` call. -/
  | logsSettled (productId : String) (env : LogsEnv)
  /-- Completion of a submission. -/
  | submitSettled (productId : String) (transaction : Transaction) (env : SubmitEnv)

/-- The component right after the mount effect (lines 33-35) has started
`fetchProducts`: line 38 has run and the request of line 40 is out. -/
def Sys.mounted : Sys :=
  { ui := { initialState with loading := true }, pending := [Pending.products],
    requests := [Request.getProducts], alerts := [] }

/-- What the handler of an event does, whether or not the page lets the event
happen. -/
def Sys.handle (sys : Sys) : Event → Sys
  | Event.clickProduct productId =>
    { sys with ui := selectStart sys.ui productId,
               pending := sys.pending ++ [Pending.logs productId],
               requests := sys.requests ++ [Request.getLogs productId] }
  | Event.search lc value => { sys with ui := handleSearch lc sys.ui value }
  | Event.edit transaction => { sys with ui := { sys.ui with transaction := transaction } }
  | Event.submit =>
    match validationAlert sys.ui with
    | some msg => { sys with alerts := sys.alerts ++ [msg] }
    | none =>
      { sys with ui := submitStart sys.ui,
                 pending := sys.pending
                   ++ [Pending.submit (sys.ui.selectedProductId.getD "") sys.ui.transaction],
                 requests := sys.requests
                   ++ [Request.getProduct (sys.ui.selectedProductId.getD "")] }
  | Event.productsSettled r =>
    { sys with ui := fetchProductsSettle r sys.ui,
               pending := sys.pending.erase Pending.products }
  | Event.logsSettled productId env =>
    { sys with ui := fetchLogsSettle env sys.ui,
               pending := sys.pending.erase (Pending.logs productId),
               requests := sys.requests ++ (fetchLogsRequests productId env).tail }
  | Event.submitSettled productId transaction env =>
    { sys with ui := submitSettle productId transaction env sys.ui,
               pending := sys.pending.erase (Pending.submit productId transaction),
               requests := sys.requests
                 ++ (tryBlock productId transaction sys.ui env).requests.tail }

/-- The handlers of a sequence of events, one after the other. -/
def Sys.handleAll (sys : Sys) (events : List Event) : Sys := events.foldl Sys.handle sys

/-- The product buttons are rendered (lines 207-233): not while `loading`, and
not while an error message is shown. -/
def productListVisible (s : State) : Bool := !s.loading && decide (s.errorMessage = "")

/-- The transaction form is rendered (line 236, `selectedProductId && ..`). -/
def formVisible (s : State) : Bool := !noSelection s.selectedProductId

/-- The submit button is disabled (line 589, `disabled=..loading`); a form whose
only submit button is disabled is not submitted. -/
def submitDisabled (s : State) : Bool := s.loading

/-- Whether the page, as rendered from the current state, lets the event
happen; a completion can happen when its call is in flight. -/
def Sys.enabled (sys : Sys) : Event → Bool
  | Event.clickProduct productId =>
    productListVisible sys.ui && sys.ui.filteredProducts.any (fun product => product._id = productId)
  | Event.search _ _ => true
  | Event.edit _ => formVisible sys.ui
  | Event.submit => formVisible sys.ui && !submitDisabled sys.ui
  | Event.productsSettled _ => decide (Pending.products ∈ sys.pending)
  | Event.logsSettled productId _ => decide (Pending.logs productId ∈ sys.pending)
  | Event.submitSettled productId transaction _ =>
    decide (Pending.submit productId transaction ∈ sys.pending)

/-- One step of the component: the handler runs when the page lets the event
happen, and nothing happens otherwise. -/
def Sys.step (sys : Sys) (e : Event) : Sys := if sys.enabled e then sys.handle e else sys

/-- The states the mounted component can get into. -/
inductive Reachable : Sys → Prop where
  | mounted : Reachable Sys.mounted
  | step (sys : Sys) (e : Event) : Reachable sys → Reachable (sys.step e)

/-! ## The preconditions of submit -/

/-- The four messages of the `alert` calls of lines 97-112. -/
def validationMessages : List String :=
  ["Please select a product first.",
   "Inward and outward quantities cannot be negative.",
   "Both inward and outward quantities cannot be zero.",
   "Particulars are required."]

/-- A run that was rejected: the handler showed exactly one of the blocking
messages, issued no request and left every state cell as it was. -/
def Rejected (s : State) (r : Run) : Prop :=
  r.state = s ∧ r.requests = [] ∧ ∃ msg ∈ validationMessages, r.alerts = [msg]

/-- The preconditions of submit in the words of the specification: a product
is selected, inward and outward are each at least 0, at least one of them is
nonzero, and particulars is non-empty. -/
def ValidSubmit (s : State) : Prop :=
  noSelection s.selectedProductId = false ∧
    0 ≤ s.transaction.inward ∧ 0 ≤ s.transaction.outward ∧
    (s.transaction.inward ≠ 0 ∨ s.transaction.outward ≠ 0) ∧
    s.transaction.particulars ≠ ""

/-- The detail request was answered with a body that parsed to `pdata`. -/
def DetailIs (env : SubmitEnv) (pdata : PData) : Prop :=
  ∃ ok, env.detail = FetchResult.response ok (Body.json pdata)

/-- The primary submission succeeded: the response was `ok` and its body parsed
to `updatedProduct`. -/
def PrimarySucceeds (env : SubmitEnv) (updatedProduct : PostBody) : Prop :=
  env.primary = FetchResult.response true (Body.json updatedProduct)

/-- The primary submission failed: the `fetch` rejected (network error) or the
response was not `ok`. -/
def PrimaryFails (env : SubmitEnv) : Prop :=
  (∃ m, env.primary = FetchResult.networkError m) ∨
    ∃ body, env.primary = FetchResult.response false body

/-! ## Sample data -/

/-- A filled-in Moulding form: 5 units inward against order PO-17. -/
def sampleTransaction : Transaction :=
  { particulars := "PO-17", inward := 5, outward := 0, remarks := "",
    shift := some "A", workerName := some "Ravi", batchNumber := some "B-204",
    actualProduction := some 120, rejection := some 3, machineNo := some "M2",
    supervisedBy := some "Meera", timeStart := some "", timeEnd := some "",
    curingTemp := some "", reworkScrap := some 0 }

/-- The product of the sample states. -/
def sampleProduct : Product :=
  { _id := "p1", articleName := "Gasket", manufacturing := "Moulding" }

/-- A state with product `p1` selected and the sample form filled in. -/
def sampleState : State :=
  { products := [sampleProduct], filteredProducts := [sampleProduct],
    selectedProductId := some "p1", selectedProduct := some sampleProduct,
    logs := [], transaction := sampleTransaction,
    loading := false, errorMessage := "", searchQuery := "" }

/-- The sample state with the inward quantity set to -4. -/
def negativeState : State :=
  { sampleState with transaction := { sampleTransaction with inward := -4 } }

/-- The sample state with both quantities 0. -/
def zeroState : State :=
  { sampleState with transaction := { sampleTransaction with inward := 0, outward := 0 } }

/-- The sample state with empty particulars. -/
def blankState : State :=
  { sampleState with transaction := { sampleTransaction with particulars := "" } }

/-- The sample state with no product selected. -/
def unselectedState : State :=
  { sampleState with selectedProductId := none, selectedProduct := none }

/-- A service that cannot be reached: every `fetch` rejects. -/
def offlineEnv : SubmitEnv :=
  { detail := FetchResult.networkError "Failed to fetch",
    primary := FetchResult.networkError "Failed to fetch",
    cascade := fun _ => FetchResult.networkError "Failed to fetch",
    typeErrorMessage := "pdata.product is undefined" }

/-- The row the service appends for the sample transaction. -/
def sampleLog : TransactionLog :=
  { date := "2024-05-01T10:00:00.000Z", particulars := "PO-17", inward := 5, outward := 0,
    balance := 5, remarks := none, shift := some "A", workerName := some "Ravi",
    batchNumber := some "B-204", actualProduction := some 120, rejection := some 3,
    machineNo := some "M2", supervisedBy := some "Meera", timeStart := none,
    timeEnd := none, curingTemp := none, reworkScrap := some 0 }

/-- Two formulations of the sample product. -/
def sampleFormulations : List Formulation :=
  [{ formulaName := "F1", fillWeight := 5 / 2 }, { formulaName := "F2", fillWeight := 1 }]

/-- The detail body of the sample product. -/
def samplePData : PData :=
  { product := some { formulations := some sampleFormulations, transactionLogs := some [] } }

/-- The body of the successful primary response. -/
def sampleUpdated : PostBody := { logs := some [sampleLog], message := none }

/-- A service that accepts the primary submission and fails both cascades: the
first by a network error, the second with a non-success response. -/
def sampleEnv : SubmitEnv :=
  { detail := FetchResult.response true (Body.json samplePData),
    primary := FetchResult.response true (Body.json sampleUpdated),
    cascade := fun i =>
      if i = 0 then FetchResult.networkError "Failed to fetch"
      else FetchResult.response false (Body.json { message := some "No stock" }),
    typeErrorMessage := "pdata.product is undefined" }

/-- A service that refuses the primary submission with a message. -/
def refusingEnv : SubmitEnv :=
  { detail := FetchResult.response true (Body.json samplePData),
    primary := FetchResult.response false
      (Body.json { logs := none, message := some "Insufficient balance" }),
    cascade := fun _ => FetchResult.response true (Body.json { message := none }),
    typeErrorMessage := "pdata.product is undefined" }

/-- A service that no longer knows the product when asked for its detail (a 404
whose body has a message and no product) and yet accepts the primary
submission. -/
def notFoundEnv : SubmitEnv :=
  { detail := FetchResult.response false (Body.json { product := none }),
    primary := FetchResult.response true (Body.json sampleUpdated),
    cascade := fun _ => FetchResult.response true (Body.json { message := none }),
    typeErrorMessage := "pdata.product is undefined" }

/-- A service that answers the primary submission with an error page that is
not JSON. -/
def badGatewayEnv : SubmitEnv :=
  { detail := FetchResult.response true (Body.json samplePData),
    primary := FetchResult.response false
      (Body.parseError "Unexpected token < in JSON at position 0"),
    cascade := fun _ => FetchResult.response true (Body.json { message := none }),
    typeErrorMessage := "pdata.product is undefined" }

/-- The property names the specification lists for a cascade body. -/
def specCascadeKeys : List String := ["particulars", "inward", "outward", "fillWeight"]

/-- The property names of the object literal of lines 147-154. -/
def cascadeKeys : List String := ["orderNo", "inward", "outward", "particulars", "fillWeight"]

/-- What a cascade body holds, for the transaction `t` of the submit and the
formulation `f` it is issued for: the five properties of lines 147-154. -/
def CascadeBody (t : Transaction) (f : Formulation) (body : JObj) : Prop :=
  body.keys = cascadeKeys ∧
    body.get "particulars" = some (JVal.str "deducted automatically.") ∧
    body.get "inward" = some (JVal.num t.inward) ∧
    body.get "outward" = some (JVal.num t.outward) ∧
    body.get "fillWeight" = some (JVal.num f.fillWeight) ∧
    body.get "orderNo" = some (JVal.str t.particulars)

/-- The sample state with one row already displayed. -/
def loggedState : State := { sampleState with logs := [sampleLog] }

/-- A service that answers both requests of `fetchLogs`: the detail carries one row. -/
def sampleLogsEnv : LogsEnv :=
  { logs := FetchResult.response true (Body.json [sampleLog]),
    detail := FetchResult.response true
      (Body.json { product := some { formulations := some sampleFormulations,
                                     transactionLogs := some [sampleLog] } }) }

/-- The same service with the logs request failing on the network. -/
def logsDownEnv : LogsEnv :=
  { sampleLogsEnv with logs := FetchResult.networkError "Failed to fetch" }

/-- A second product. -/
def otherProduct : Product :=
  { _id := "p2", articleName := "Bushing", manufacturing := "Extrusion" }

/-- A row of the second product. -/
def otherLog : TransactionLog := { sampleLog with particulars := "PO-99", inward := 0, outward := 2 }

/-- The service answering `fetchLogs` for the second product. -/
def otherLogsEnv : LogsEnv :=
  { logs := FetchResult.response true (Body.json [otherLog]),
    detail := FetchResult.response true
      (Body.json { product := some { formulations := none,
                                     transactionLogs := some [otherLog] } }) }

/-- The component with both products listed, nothing selected and no call in flight. -/
def listedSys : Sys :=
  { ui := { initialState with products := [sampleProduct, otherProduct],
                              filteredProducts := [sampleProduct, otherProduct] },
    pending := [], requests := [Request.getProducts], alerts := [] }

/-- The mounted component after the product list arrived, product p1 was
clicked, its logs arrived, the form was filled in and submitted: the
submission is in flight. -/
def inFlightSys : Sys :=
  (((((Sys.mounted.step
    (Event.productsSettled (FetchResult.response true (Body.json [sampleProduct])))).step
    (Event.clickProduct "p1")).step
    (Event.logsSettled "p1" sampleLogsEnv)).step
    (Event.edit sampleTransaction)).step
    Event.submit)

/-- At most one call is in flight, and the busy flag is set while one is. -/
def Sys.Serial (sys : Sys) : Prop :=
  sys.pending = [] ∨ ∃ call, sys.pending = [call] ∧ sys.ui.loading = true

/-- The sample state with the busy flag set. -/
def busyState : State := { sampleState with loading := true }

/-- The mounted component after the list of both products arrived and product
p1 was clicked: the fetch of its logs is in flight. -/
def fetchingSys : Sys :=
  (Sys.mounted.step
    (Event.productsSettled
      (FetchResult.response true (Body.json [sampleProduct, otherProduct])))).step
    (Event.clickProduct "p1")

/-- Every `fetchLogs` call in flight was started for the product that is
selected now. -/
def Sys.Scoped (sys : Sys) : Prop :=
  ∀ productId, Pending.logs productId ∈ sys.pending → sys.ui.selectedProductId = some productId

/-! ## Lemmas -/

theorem rejectWith_rejected (s : State) (msg : String) (h : msg ∈ validationMessages) :
    Rejected s (rejectWith s msg) :=
  ⟨rfl, rfl, msg, h, rfl⟩

/-- A submit that meets the preconditions passes the four checks. -/
theorem handleLogTransaction_of_valid (s : State) (env : SubmitEnv) (h : ValidSubmit s) :
    handleLogTransaction s env = submitBody s env := by
  obtain ⟨h1, h2, h3, h4, h5⟩ := h
  unfold handleLogTransaction
  have hneg : (decide (s.transaction.inward < 0) || decide (s.transaction.outward < 0)) = false := by
    simp [h2, h3]
  have hzero : (decide (s.transaction.inward = 0) && decide (s.transaction.outward = 0)) = false := by
    rcases h4 with h4 | h4 <;> simp [h4]
  simp [h1, hneg, hzero, h5]

/-- The promise of a cascade callback is always fulfilled, never rejected. -/
theorem formulaPromise_fulfils (formula : Formulation) (r : FetchResult ErrorBody) :
    ∃ v, formulaPromise formula r = Except.ok v := by
  unfold formulaPromise
  cases formulaAttempt formula r with
  | error m => exact ⟨_, rfl⟩
  | ok u => exact ⟨_, rfl⟩

/-- The join of the cascade promises fulfils, with one value per formulation. -/
theorem promiseAll_formulaPromises (cascade : Nat → FetchResult ErrorBody)
    (formulations : List Formulation) (i : Nat) :
    ∃ vs, promiseAll (formulaPromises cascade i formulations) = Except.ok vs ∧
      formulaPromises cascade i formulations = vs.map Except.ok ∧
      vs.length = formulations.length := by
  induction formulations generalizing i with
  | nil => exact ⟨[], rfl, rfl, rfl⟩
  | cons formula rest ih =>
    obtain ⟨v, hv⟩ := formulaPromise_fulfils formula (cascade i)
    obtain ⟨vs, h1, h2, h3⟩ := ih (i + 1)
    refine ⟨v :: vs, ?_, ?_, ?_⟩
    · simp [formulaPromises, hv, promiseAll, h1]
    · simp [formulaPromises, hv, h2]
    · simp [h3]

/-- The run of a valid submit whose detail arrived and whose primary submission
succeeded, spelled out: the `try` block runs to its end. -/
theorem submitBody_of_success (s : State) (env : SubmitEnv) (pdata : PData)
    (updatedProduct : PostBody) (hd : DetailIs env pdata)
    (hp : PrimarySucceeds env updatedProduct)
    (product : ProductDetail) (hprod : pdata.product = some product) :
    ∃ vs, vs.length = pdata.formulations.length ∧
      formulaPromises env.cascade 0 pdata.formulations = vs.map Except.ok ∧
      tryBlock (s.selectedProductId.getD "") s.transaction
          { s with loading := true, errorMessage := "" } env
        = { state := { s with loading := true, errorMessage := "",
                              logs := updatedProduct.logs.getD [],
                              transaction := resetTransaction },
            requests := [Request.getProduct (s.selectedProductId.getD ""),
                Request.postLog (s.selectedProductId.getD "") s.transaction]
              ++ pdata.formulations.map (formulaRequest s.transaction),
            thrown := none, settled := vs } ∧
      submitBody s env
        = { state := { s with loading := false, errorMessage := "",
                              logs := updatedProduct.logs.getD [],
                              transaction := resetTransaction },
            alerts := [],
            requests := [Request.getProduct (s.selectedProductId.getD ""),
                Request.postLog (s.selectedProductId.getD "") s.transaction]
              ++ pdata.formulations.map (formulaRequest s.transaction),
            settled := vs } := by
  obtain ⟨ok, hd⟩ := hd
  obtain ⟨vs, h1, h2, h3⟩ :=
    promiseAll_formulaPromises env.cascade pdata.formulations 0
  have ht : tryBlock (s.selectedProductId.getD "") s.transaction
          { s with loading := true, errorMessage := "" } env
        = { state := { s with loading := true, errorMessage := "",
                              logs := updatedProduct.logs.getD [],
                              transaction := resetTransaction },
            requests := [Request.getProduct (s.selectedProductId.getD ""),
                Request.postLog (s.selectedProductId.getD "") s.transaction]
              ++ pdata.formulations.map (formulaRequest s.transaction),
            thrown := none, settled := vs } := by
    unfold PrimarySucceeds at hp
    have hf : pdata.formulations = product.formulations.getD [] := by
      simp only [PData.formulations, hprod]
    rw [hf] at h1 ⊢
    simp only [tryBlock, hd, hp, hprod, h1]
    rfl
  refine ⟨vs, h3, h2, ht, ?_⟩
  simp only [submitBody, ht]

/-- The run of a valid submit whose primary submission succeeded while the
detail body had no `product`: line 140 has stored the rows, line 142 throws,
nothing is sent after the primary POST and the form is not reset. -/
theorem submitBody_of_missing_product (s : State) (env : SubmitEnv) (pdata : PData)
    (updatedProduct : PostBody) (hd : DetailIs env pdata)
    (hp : PrimarySucceeds env updatedProduct) (hnone : pdata.product = none) :
    submitBody s env
      = { state := { s with loading := false,
                            errorMessage := jsOr env.typeErrorMessage "Failed to log transaction.",
                            logs := updatedProduct.logs.getD [] },
          alerts := [],
          requests := [Request.getProduct (s.selectedProductId.getD ""),
            Request.postLog (s.selectedProductId.getD "") s.transaction],
          settled := [] } := by
  obtain ⟨ok, hd⟩ := hd
  unfold PrimarySucceeds at hp
  simp only [submitBody, tryBlock, hd, hp, hnone]
  rfl

/-- The cascade requests of a request list that starts with the two product
requests and goes on with one cascade request per formulation. -/
theorem filter_isCascade_requests (productId : String) (transaction : Transaction)
    (formulations : List Formulation) :
    ([Request.getProduct productId, Request.postLog productId transaction]
        ++ formulations.map (formulaRequest transaction)).filter Request.isCascade
      = formulations.map (formulaRequest transaction) := by
  have h : ∀ fs : List Formulation,
      (fs.map (formulaRequest transaction)).filter Request.isCascade
        = fs.map (formulaRequest transaction) := by
    intro fs
    induction fs with
    | nil => rfl
    | cons f rest ih => simp [formulaRequest, Request.isCascade, List.filter_cons]
  simp [List.filter_cons, Request.isCascade, h]

/-- The cascade requests of lines 116-184 when the primary submission
succeeded: one per formulation of the detail body, none when the body has no
`product`. -/
theorem submitBody_cascades (s : State) (env : SubmitEnv) (pdata : PData)
    (updatedProduct : PostBody) (hd : DetailIs env pdata)
    (hp : PrimarySucceeds env updatedProduct) :
    (submitBody s env).cascades = pdata.formulations.map (formulaRequest s.transaction) := by
  cases hprod : pdata.product with
  | none =>
    rw [submitBody_of_missing_product s env pdata updatedProduct hd hp hprod]
    simp only [PData.formulations, hprod]
    rfl
  | some product =>
    obtain ⟨vs, -, -, -, hrun⟩ :=
      submitBody_of_success s env pdata updatedProduct hd hp product hprod
    rw [hrun]
    exact filter_isCascade_requests _ _ _

/-! ## Validation (C1-C4) -/

/-- C1: whatever the state and the responses of the service, a submit whose
inward or outward quantity is negative is rejected: one blocking message is
shown (the missing-selection one or the negative-quantity one), no request of
any kind is issued and the state is unchanged. -/
theorem negative_quantity_rejected (s : State) (env : SubmitEnv)
    (h : s.transaction.inward < 0 ∨ s.transaction.outward < 0) :
    Rejected s (handleLogTransaction s env) ∧
      (handleLogTransaction s env).requests = [] ∧
      ((handleLogTransaction s env).alerts = ["Please select a product first."] ∨
        (handleLogTransaction s env).alerts
          = ["Inward and outward quantities cannot be negative."]) := by
  unfold handleLogTransaction
  by_cases hsel : noSelection s.selectedProductId = true
  · rw [if_pos hsel]
    exact ⟨rejectWith_rejected s _ (by simp [validationMessages]), rfl, Or.inl rfl⟩
  · have hneg : (decide (s.transaction.inward < 0) || decide (s.transaction.outward < 0))
        = true := by
      simpa using h
    rw [if_neg hsel, if_pos hneg]
    exact ⟨rejectWith_rejected s _ (by simp [validationMessages]), rfl, Or.inr rfl⟩

/-- Witness for C1: the sample form with inward set to -4, service unreachable. -/
theorem negative_quantity_rejected_witness :
    (negativeState.transaction.inward < 0 ∨ negativeState.transaction.outward < 0) ∧
      Rejected negativeState (handleLogTransaction negativeState offlineEnv) ∧
      (handleLogTransaction negativeState offlineEnv).requests = [] ∧
      ((handleLogTransaction negativeState offlineEnv).alerts
          = ["Please select a product first."] ∨
        (handleLogTransaction negativeState offlineEnv).alerts
          = ["Inward and outward quantities cannot be negative."]) :=
  ⟨Or.inl (by norm_num [negativeState, sampleTransaction]),
    negative_quantity_rejected negativeState offlineEnv
      (Or.inl (by norm_num [negativeState, sampleTransaction]))⟩

/-- C2: whatever the state and the responses of the service, a submit whose
inward and outward quantities are both 0 is rejected: one blocking message is
shown (the missing-selection one or the both-zero one), no request is issued
and the state is unchanged. -/
theorem zero_quantities_rejected (s : State) (env : SubmitEnv)
    (hin : s.transaction.inward = 0) (hout : s.transaction.outward = 0) :
    Rejected s (handleLogTransaction s env) ∧
      (handleLogTransaction s env).requests = [] ∧
      ((handleLogTransaction s env).alerts = ["Please select a product first."] ∨
        (handleLogTransaction s env).alerts
          = ["Both inward and outward quantities cannot be zero."]) := by
  unfold handleLogTransaction
  by_cases hsel : noSelection s.selectedProductId = true
  · rw [if_pos hsel]
    exact ⟨rejectWith_rejected s _ (by simp [validationMessages]), rfl, Or.inl rfl⟩
  · have hneg : ¬ ((decide (s.transaction.inward < 0) || decide (s.transaction.outward < 0))
        = true) := by
      simp [hin, hout]
    have hzero : (decide (s.transaction.inward = 0) && decide (s.transaction.outward = 0))
        = true := by
      simp [hin, hout]
    rw [if_neg hsel, if_neg hneg, if_pos hzero]
    exact ⟨rejectWith_rejected s _ (by simp [validationMessages]), rfl, Or.inr rfl⟩

/-- Witness for C2: the sample form with both quantities 0. -/
theorem zero_quantities_rejected_witness :
    (zeroState.transaction.inward = 0 ∧ zeroState.transaction.outward = 0) ∧
      Rejected zeroState (handleLogTransaction zeroState offlineEnv) ∧
      (handleLogTransaction zeroState offlineEnv).requests = [] ∧
      ((handleLogTransaction zeroState offlineEnv).alerts
          = ["Please select a product first."] ∨
        (handleLogTransaction zeroState offlineEnv).alerts
          = ["Both inward and outward quantities cannot be zero."]) :=
  ⟨⟨rfl, rfl⟩, zero_quantities_rejected zeroState offlineEnv rfl rfl⟩

/-- C3: whatever the state and the responses of the service, a submit whose
particulars is the empty string is rejected: exactly one of the four blocking
messages is shown (the particulars one when the three earlier checks pass), no
request is issued and the state is unchanged. -/
theorem empty_particulars_rejected (s : State) (env : SubmitEnv)
    (h : s.transaction.particulars = "") :
    Rejected s (handleLogTransaction s env) ∧
      (handleLogTransaction s env).requests = [] ∧
      (ValidSubmit { s with transaction := { s.transaction with particulars := "x" } } →
        (handleLogTransaction s env).alerts = ["Particulars are required."]) := by
  have hrej : Rejected s (handleLogTransaction s env) := by
    unfold handleLogTransaction
    rw [if_pos h]
    split
    · exact rejectWith_rejected s _ (by simp [validationMessages])
    · split
      · exact rejectWith_rejected s _ (by simp [validationMessages])
      · split
        · exact rejectWith_rejected s _ (by simp [validationMessages])
        · exact rejectWith_rejected s _ (by simp [validationMessages])
  refine ⟨hrej, hrej.2.1, ?_⟩
  rintro ⟨h1, h2, h3, h4, -⟩
  have hneg : (decide (s.transaction.inward < 0) || decide (s.transaction.outward < 0))
      = false := by
    simpa using And.intro h2 h3
  have hzero : (decide (s.transaction.inward = 0) && decide (s.transaction.outward = 0))
      = false := by
    rcases h4 with h4 | h4 <;> simp at h4 <;> simp [h4]
  simp at h1
  simp [handleLogTransaction, h1, hneg, hzero, h, rejectWith]

/-- Witness for C3: the sample form with particulars left empty. -/
theorem empty_particulars_rejected_witness :
    blankState.transaction.particulars = "" ∧
      Rejected blankState (handleLogTransaction blankState offlineEnv) ∧
      (handleLogTransaction blankState offlineEnv).requests = [] ∧
      (handleLogTransaction blankState offlineEnv).alerts = ["Particulars are required."] :=
  ⟨rfl, (empty_particulars_rejected blankState offlineEnv rfl).1,
    (empty_particulars_rejected blankState offlineEnv rfl).2.1,
    (empty_particulars_rejected blankState offlineEnv rfl).2.2
      ⟨by decide, by norm_num [blankState, sampleTransaction],
        by norm_num [blankState, sampleTransaction],
        Or.inl (by norm_num [blankState, sampleTransaction]), by decide⟩⟩

/-- C4: when no product is selected (`selectedProductId` is `null`), submit
shows the blocking message "Please select a product first." and nothing else,
issues no request and leaves the state unchanged, whatever the form holds. -/
theorem no_selection_rejected (s : State) (env : SubmitEnv)
    (h : s.selectedProductId = none) :
    (handleLogTransaction s env).alerts = ["Please select a product first."] ∧
      (handleLogTransaction s env).requests = [] ∧
      (handleLogTransaction s env).state = s ∧
      Rejected s (handleLogTransaction s env) := by
  have hsel : noSelection s.selectedProductId = true := by rw [h]; rfl
  unfold handleLogTransaction
  rw [if_pos hsel]
  exact ⟨rfl, rfl, rfl, rejectWith_rejected s _ (by simp [validationMessages])⟩

/-- Witness for C4: the sample form with no product selected. -/
theorem no_selection_rejected_witness :
    unselectedState.selectedProductId = none ∧
      (handleLogTransaction unselectedState sampleEnv).alerts
        = ["Please select a product first."] ∧
      (handleLogTransaction unselectedState sampleEnv).requests = [] ∧
      (handleLogTransaction unselectedState sampleEnv).state = unselectedState ∧
      Rejected unselectedState (handleLogTransaction unselectedState sampleEnv) :=
  ⟨rfl, no_selection_rejected unselectedState sampleEnv rfl⟩

/-- The sample state meets the preconditions of submit. -/
theorem sampleState_valid : ValidSubmit sampleState :=
  ⟨by decide, by norm_num [sampleState, sampleTransaction],
    by norm_num [sampleState, sampleTransaction],
    Or.inl (by norm_num [sampleState, sampleTransaction]), by decide⟩

/-- The body built for a formulation holds the five properties. -/
theorem formulaTransaction_cascadeBody (t : Transaction) (f : Formulation) :
    CascadeBody t f (formulaTransaction t f) := by
  simp [CascadeBody, formulaTransaction, JObj.keys, JObj.get, cascadeKeys, List.lookup]

/-! ## The cascade (C5-C7) -/

/-- C5: for a valid submit whose detail response lists the formulations
`fs` (N of them, none when the property or the product is missing) and whose
primary submission succeeds, the cascade requests issued are exactly N, in the order
of `fs`: the i-th is addressed to the i-th formulation (by its `formulaName`)
and carries that formulation's `fillWeight`; so none is skipped and none is
addressed twice. -/
theorem cascade_one_request_per_formulation (s : State) (env : SubmitEnv) (pdata : PData)
    (updatedProduct : PostBody) (hv : ValidSubmit s) (hd : DetailIs env pdata)
    (hp : PrimarySucceeds env updatedProduct) :
    (handleLogTransaction s env).cascades
        = pdata.formulations.map (formulaRequest s.transaction) ∧
      (handleLogTransaction s env).cascades.length
        = pdata.formulations.length ∧
      ∀ (i : Nat) (hi : i < pdata.formulations.length),
        ∃ body, (handleLogTransaction s env).cascades[i]?
            = some (Request.postFormula
                (pdata.formulations[i]).formulaName body) ∧
          body.get "fillWeight"
            = some (JVal.num (pdata.formulations[i]).fillWeight) := by
  have hc : (handleLogTransaction s env).cascades
      = pdata.formulations.map (formulaRequest s.transaction) := by
    rw [handleLogTransaction_of_valid s env hv]
    exact submitBody_cascades s env pdata updatedProduct hd hp
  refine ⟨hc, by rw [hc, List.length_map], ?_⟩
  intro i hi
  refine ⟨formulaTransaction s.transaction (pdata.formulations[i]), ?_,
    (formulaTransaction_cascadeBody _ _).2.2.2.2.1⟩
  rw [hc, List.getElem?_map, List.getElem?_eq_getElem hi]
  rfl

/-- Witness for C5: the sample product has two formulations, F1 and F2. -/
theorem cascade_one_request_per_formulation_witness :
    ValidSubmit sampleState ∧ DetailIs sampleEnv samplePData ∧
      PrimarySucceeds sampleEnv sampleUpdated ∧
      (handleLogTransaction sampleState sampleEnv).cascades
        = samplePData.formulations.map
            (formulaRequest sampleState.transaction) ∧
      (handleLogTransaction sampleState sampleEnv).cascades.length
        = samplePData.formulations.length :=
  ⟨sampleState_valid, ⟨true, rfl⟩, rfl,
    (cascade_one_request_per_formulation sampleState sampleEnv samplePData sampleUpdated
      sampleState_valid ⟨true, rfl⟩ rfl).1,
    (cascade_one_request_per_formulation sampleState sampleEnv samplePData sampleUpdated
      sampleState_valid ⟨true, rfl⟩ rfl).2.1⟩

/-- The run of the sample submit: the requests it issued. -/
theorem sample_requests :
    (handleLogTransaction sampleState sampleEnv).requests
      = [Request.getProduct "p1", Request.postLog "p1" sampleTransaction,
          Request.postFormula "F1" (formulaTransaction sampleTransaction
            { formulaName := "F1", fillWeight := 5 / 2 }),
          Request.postFormula "F2" (formulaTransaction sampleTransaction
            { formulaName := "F2", fillWeight := 1 })] := by
  obtain ⟨vs, -, -, -, hrun⟩ :=
    submitBody_of_success sampleState sampleEnv samplePData sampleUpdated ⟨true, rfl⟩ rfl
      _ rfl
  rw [handleLogTransaction_of_valid sampleState sampleEnv sampleState_valid, hrun]
  rfl

/-- In the sample submit both cascade promises are fulfilled with a diagnostic
string: both cascades failed, and the join still completed. -/
theorem sample_settled :
    (handleLogTransaction sampleState sampleEnv).settled
      = [some "Formula F1 failed: Failed to fetch",
          some "Formula F2 failed: Error logging formula F2: No stock"] := by
  obtain ⟨vs, -, hprom, -, hrun⟩ :=
    submitBody_of_success sampleState sampleEnv samplePData sampleUpdated ⟨true, rfl⟩ rfl
      _ rfl
  rw [handleLogTransaction_of_valid sampleState sampleEnv sampleState_valid, hrun]
  have h : formulaPromises sampleEnv.cascade 0 samplePData.formulations
      = [Except.ok (some "Formula F1 failed: Failed to fetch"),
          Except.ok (some "Formula F2 failed: Error logging formula F2: No stock")] := by
    simp [formulaPromises, formulaPromise, formulaAttempt, sampleEnv, samplePData,
      sampleFormulations, jsOrUndef, jsOr]
  rw [h] at hprom
  match vs, hprom with
  | [a, b], hprom =>
    simp only [List.map_cons, List.map_nil, List.cons.injEq, Except.ok.injEq, and_true] at hprom
    obtain ⟨ha, hb⟩ := hprom
    rw [← ha, ← hb]

/-- Counterexample to C6 as stated: in the sample submit the body of the
cascade request for formulation F1 is not a record of the four properties
particulars, inward, outward, fillWeight: it has a fifth, `orderNo`, which
holds the particulars of the transaction ("PO-17") and so depends on it. -/
theorem cascade_body_not_four_fields :
    ∃ body, Request.postFormula "F1" body ∈ (handleLogTransaction sampleState sampleEnv).requests ∧
      ¬ body.keys.Perm specCascadeKeys ∧
      "orderNo" ∈ body.keys ∧
      body.get "orderNo" = some (JVal.str sampleState.transaction.particulars) ∧
      sampleState.transaction.particulars = "PO-17" := by
  refine ⟨formulaTransaction sampleTransaction { formulaName := "F1", fillWeight := 5 / 2 },
    ?_, ?_, ?_, ?_, rfl⟩
  · rw [sample_requests]
    simp
  · intro h
    have hlen := h.length_eq
    simp [formulaTransaction, JObj.keys, specCascadeKeys] at hlen
  · simp [formulaTransaction, JObj.keys]
  · simp [formulaTransaction, JObj.get, List.lookup, sampleState]

/-- C6, amended: for a valid submit with transaction `t` whose primary
submission succeeds, every cascade request is issued for a formulation `f` of
the detail response, is addressed to `f.formulaName`, and its body is the
record of five properties orderNo, inward, outward, particulars, fillWeight
with particulars = "deducted automatically." (the same string for every `t`
and `f`), inward = t.inward, outward = t.outward, fillWeight = f.fillWeight and
orderNo = t.particulars; and every formulation gets such a request. -/
theorem cascade_body_five_fields (s : State) (env : SubmitEnv) (pdata : PData)
    (updatedProduct : PostBody) (hv : ValidSubmit s) (hd : DetailIs env pdata)
    (hp : PrimarySucceeds env updatedProduct) :
    (∀ r ∈ (handleLogTransaction s env).cascades,
        ∃ f ∈ pdata.formulations, ∃ body,
          r = Request.postFormula f.formulaName body ∧ CascadeBody s.transaction f body) ∧
      ∀ f ∈ pdata.formulations, ∃ body,
        Request.postFormula f.formulaName body ∈ (handleLogTransaction s env).cascades ∧
          CascadeBody s.transaction f body := by
  have hc : (handleLogTransaction s env).cascades
      = pdata.formulations.map (formulaRequest s.transaction) := by
    rw [handleLogTransaction_of_valid s env hv]
    exact submitBody_cascades s env pdata updatedProduct hd hp
  rw [hc]
  constructor
  · intro r hr
    obtain ⟨f, hf, rfl⟩ := List.mem_map.mp hr
    exact ⟨f, hf, formulaTransaction s.transaction f, rfl, formulaTransaction_cascadeBody _ _⟩
  · intro f hf
    exact ⟨formulaTransaction s.transaction f, List.mem_map.mpr ⟨f, hf, rfl⟩,
      formulaTransaction_cascadeBody _ _⟩

/-- Witness for C6 (amended): the sample submit, with formulations F1 and F2. -/
theorem cascade_body_five_fields_witness :
    ValidSubmit sampleState ∧ DetailIs sampleEnv samplePData ∧
      PrimarySucceeds sampleEnv sampleUpdated ∧
      ((∀ r ∈ (handleLogTransaction sampleState sampleEnv).cascades,
          ∃ f ∈ samplePData.formulations, ∃ body,
            r = Request.postFormula f.formulaName body ∧
              CascadeBody sampleState.transaction f body) ∧
        ∀ f ∈ samplePData.formulations, ∃ body,
          Request.postFormula f.formulaName body
              ∈ (handleLogTransaction sampleState sampleEnv).cascades ∧
            CascadeBody sampleState.transaction f body) :=
  ⟨sampleState_valid, ⟨true, rfl⟩, rfl,
    cascade_body_five_fields sampleState sampleEnv samplePData sampleUpdated
      sampleState_valid ⟨true, rfl⟩ rfl⟩

/-- The run of the sample submit against the service that has lost the
product: the rows of the primary response are displayed, the error message is
the one of the `TypeError`, the form is as it was, and the only requests are
the detail request and the primary POST. -/
theorem notFound_run :
    handleLogTransaction sampleState notFoundEnv
      = { state := { sampleState with errorMessage := "pdata.product is undefined",
                                      logs := [sampleLog] },
          alerts := [],
          requests := [Request.getProduct "p1", Request.postLog "p1" sampleTransaction],
          settled := [] } := by
  rw [handleLogTransaction_of_valid sampleState notFoundEnv sampleState_valid,
    submitBody_of_missing_product sampleState notFoundEnv { product := none } sampleUpdated
      ⟨false, rfl⟩ rfl rfl]
  rfl

/-- Counterexample to C7 as stated: the sample submit is valid and its primary
submission succeeds, but the detail request was answered without a product
(the answer of a 404, which the source does not tell from a 200).  Line 142
throws after the log list was replaced: the `try` block does throw, and an
error message is shown to the user. -/
theorem missing_product_shows_error :
    ValidSubmit sampleState ∧ DetailIs notFoundEnv { product := none } ∧
      PrimarySucceeds notFoundEnv sampleUpdated ∧
      (handleLogTransaction sampleState notFoundEnv).state.logs = [sampleLog] ∧
      (tryBlock (sampleState.selectedProductId.getD "") sampleState.transaction
        { sampleState with loading := true, errorMessage := "" } notFoundEnv).thrown
        = some "pdata.product is undefined" ∧
      (handleLogTransaction sampleState notFoundEnv).state.errorMessage
        = "pdata.product is undefined" ∧
      (handleLogTransaction sampleState notFoundEnv).state.errorMessage ≠ "" := by
  refine ⟨sampleState_valid, ⟨false, rfl⟩, rfl, ?_, rfl, ?_, ?_⟩
  · rw [notFound_run]
  · rw [notFound_run]
  · rw [notFound_run]
    decide

/-- C7, amended: for a valid submit whose detail response carries the product
and whose primary submission succeeds, whatever each of the cascade requests
meets (success, network error, non-success response with or without a
readable body): all N cascade requests are issued, every cascade promise is
fulfilled and the join completes with N values, the `try` block throws
nothing, the displayed logs are the ones of the primary response, no alert is
shown, the error message is empty and the busy flag is cleared. -/
theorem cascade_failures_tolerated (s : State) (env : SubmitEnv) (pdata : PData)
    (updatedProduct : PostBody) (product : ProductDetail) (hv : ValidSubmit s)
    (hd : DetailIs env pdata) (hprod : pdata.product = some product)
    (hp : PrimarySucceeds env updatedProduct) :
    (handleLogTransaction s env).cascades
        = (product.formulations.getD []).map (formulaRequest s.transaction) ∧
      formulaPromises env.cascade 0 (product.formulations.getD [])
        = (handleLogTransaction s env).settled.map Except.ok ∧
      (handleLogTransaction s env).settled.length
        = (product.formulations.getD []).length ∧
      (tryBlock (s.selectedProductId.getD "") s.transaction
        { s with loading := true, errorMessage := "" } env).thrown = none ∧
      (handleLogTransaction s env).state.logs = updatedProduct.logs.getD [] ∧
      (handleLogTransaction s env).alerts = [] ∧
      (handleLogTransaction s env).state.errorMessage = "" ∧
      (handleLogTransaction s env).state.loading = false := by
  have hf : pdata.formulations = product.formulations.getD [] := by
    simp only [PData.formulations, hprod]
  obtain ⟨vs, hlen, hprom, htry, hrun⟩ :=
    submitBody_of_success s env pdata updatedProduct hd hp product hprod
  rw [hf] at hlen hprom
  have hc : (handleLogTransaction s env).cascades
      = (product.formulations.getD []).map (formulaRequest s.transaction) := by
    rw [handleLogTransaction_of_valid s env hv, ← hf]
    exact submitBody_cascades s env pdata updatedProduct hd hp
  refine ⟨hc, ?_, ?_, ?_, ?_, ?_, ?_, ?_⟩
  · rw [handleLogTransaction_of_valid s env hv, hrun]; exact hprom
  · rw [handleLogTransaction_of_valid s env hv, hrun]; exact hlen
  · rw [htry]
  · rw [handleLogTransaction_of_valid s env hv, hrun]
  · rw [handleLogTransaction_of_valid s env hv, hrun]
  · rw [handleLogTransaction_of_valid s env hv, hrun]
  · rw [handleLogTransaction_of_valid s env hv, hrun]

/-- Witness for C7 (amended): in the sample submit both cascades fail, the
first by a network error and the second with a non-success response. -/
theorem cascade_failures_tolerated_witness :
    ValidSubmit sampleState ∧ DetailIs sampleEnv samplePData ∧
      PrimarySucceeds sampleEnv sampleUpdated ∧
      (handleLogTransaction sampleState sampleEnv).cascades
        = sampleFormulations.map (formulaRequest sampleState.transaction) ∧
      (handleLogTransaction sampleState sampleEnv).state.logs = [sampleLog] ∧
      (handleLogTransaction sampleState sampleEnv).state.errorMessage = "" ∧
      (handleLogTransaction sampleState sampleEnv).settled
        = [some "Formula F1 failed: Failed to fetch",
            some "Formula F2 failed: Error logging formula F2: No stock"] :=
  ⟨sampleState_valid, ⟨true, rfl⟩, rfl,
    (cascade_failures_tolerated sampleState sampleEnv samplePData sampleUpdated _
      sampleState_valid ⟨true, rfl⟩ rfl rfl).1,
    (cascade_failures_tolerated sampleState sampleEnv samplePData sampleUpdated _
      sampleState_valid ⟨true, rfl⟩ rfl rfl).2.2.2.2.1,
    (cascade_failures_tolerated sampleState sampleEnv samplePData sampleUpdated _
      sampleState_valid ⟨true, rfl⟩ rfl rfl).2.2.2.2.2.2.1,
    sample_settled⟩

/-! ## After a successful submit (C8, C9) -/

/-- Counterexample to C8 as stated: the sample submit is valid and its primary
submission succeeds, but the detail request was answered without a product;
line 142 throws, line 178 is never reached, and after the submit the form
still holds particulars "PO-17" and inward 5. -/
theorem missing_product_keeps_form :
    ValidSubmit sampleState ∧ DetailIs notFoundEnv { product := none } ∧
      PrimarySucceeds notFoundEnv sampleUpdated ∧
      (handleLogTransaction sampleState notFoundEnv).state.transaction = sampleTransaction ∧
      (handleLogTransaction sampleState notFoundEnv).state.transaction.particulars = "PO-17" ∧
      (handleLogTransaction sampleState notFoundEnv).state.transaction.particulars ≠ "" ∧
      (handleLogTransaction sampleState notFoundEnv).state.transaction.inward = 5 ∧
      (handleLogTransaction sampleState notFoundEnv).state.transaction.inward ≠ 0 := by
  refine ⟨sampleState_valid, ⟨false, rfl⟩, rfl, ?_, ?_, ?_, ?_, ?_⟩
  · rw [notFound_run]
    rfl
  · rw [notFound_run]
    rfl
  · rw [notFound_run]
    decide
  · rw [notFound_run]
    rfl
  · rw [notFound_run]
    decide

/-- C8, amended: for a valid submit whose detail response carries the product
and whose primary submission succeeds, after submit completes the transaction
input has particulars = "", inward = 0, outward = 0 and remarks = "", whatever
the form held before. -/
theorem success_clears_form (s : State) (env : SubmitEnv) (pdata : PData)
    (updatedProduct : PostBody) (product : ProductDetail) (hv : ValidSubmit s)
    (hd : DetailIs env pdata) (hprod : pdata.product = some product)
    (hp : PrimarySucceeds env updatedProduct) :
    (handleLogTransaction s env).state.transaction.particulars = "" ∧
      (handleLogTransaction s env).state.transaction.inward = 0 ∧
      (handleLogTransaction s env).state.transaction.outward = 0 ∧
      (handleLogTransaction s env).state.transaction.remarks = "" := by
  obtain ⟨vs, -, -, -, hrun⟩ :=
    submitBody_of_success s env pdata updatedProduct hd hp product hprod
  rw [handleLogTransaction_of_valid s env hv, hrun]
  exact ⟨rfl, rfl, rfl, rfl⟩

/-- Witness for C8 (amended): the sample submit, whose form held "PO-17" and
inward 5. -/
theorem success_clears_form_witness :
    ValidSubmit sampleState ∧ DetailIs sampleEnv samplePData ∧
      PrimarySucceeds sampleEnv sampleUpdated ∧
      sampleState.transaction.particulars = "PO-17" ∧
      (handleLogTransaction sampleState sampleEnv).state.transaction.particulars = "" ∧
      (handleLogTransaction sampleState sampleEnv).state.transaction.inward = 0 ∧
      (handleLogTransaction sampleState sampleEnv).state.transaction.outward = 0 ∧
      (handleLogTransaction sampleState sampleEnv).state.transaction.remarks = "" :=
  ⟨sampleState_valid, ⟨true, rfl⟩, rfl, rfl,
    success_clears_form sampleState sampleEnv samplePData sampleUpdated _
      sampleState_valid ⟨true, rfl⟩ rfl rfl⟩

/-- Counterexample to C9 as stated: the sample form holds shift "A", worker
"Ravi", batch "B-204", production 120 before the submit; after the successful
submit these properties are gone from the transaction object (`undefined`),
so they do not hold the values they had before. -/
theorem success_drops_process_fields :
    sampleState.transaction.shift = some "A" ∧
      (handleLogTransaction sampleState sampleEnv).state.transaction.shift = none ∧
      sampleState.transaction.workerName = some "Ravi" ∧
      (handleLogTransaction sampleState sampleEnv).state.transaction.workerName = none ∧
      sampleState.transaction.actualProduction = some 120 ∧
      (handleLogTransaction sampleState sampleEnv).state.transaction.actualProduction = none ∧
      (handleLogTransaction sampleState sampleEnv).state.transaction.shift
        ≠ sampleState.transaction.shift := by
  obtain ⟨vs, -, -, -, hrun⟩ :=
    submitBody_of_success sampleState sampleEnv samplePData sampleUpdated ⟨true, rfl⟩ rfl
      _ rfl
  rw [handleLogTransaction_of_valid sampleState sampleEnv sampleState_valid, hrun]
  refine ⟨rfl, rfl, rfl, rfl, rfl, rfl, ?_⟩
  simp [resetTransaction, sampleState, sampleTransaction]

/-- C9, amended: after a successful submit (a valid one whose detail response
carries the product and whose primary submission succeeds, so that the `try`
block runs to its end) the transaction input is the object of line 178 and
nothing more: the reset replaces the whole object, so beside
particulars, inward, outward and remarks (which it sets) every process-specific
property (shift, workerName, batchNumber, actualProduction, rejection,
machineNo, supervisedBy, timeStart, timeEnd, curingTemp, reworkScrap) is
absent afterwards, whatever it held before. -/
theorem success_replaces_transaction (s : State) (env : SubmitEnv) (pdata : PData)
    (updatedProduct : PostBody) (product : ProductDetail) (hv : ValidSubmit s)
    (hd : DetailIs env pdata) (hprod : pdata.product = some product)
    (hp : PrimarySucceeds env updatedProduct) :
    (handleLogTransaction s env).state.transaction = resetTransaction ∧
      (handleLogTransaction s env).state.transaction.shift = none ∧
      (handleLogTransaction s env).state.transaction.workerName = none ∧
      (handleLogTransaction s env).state.transaction.batchNumber = none ∧
      (handleLogTransaction s env).state.transaction.actualProduction = none ∧
      (handleLogTransaction s env).state.transaction.rejection = none ∧
      (handleLogTransaction s env).state.transaction.machineNo = none ∧
      (handleLogTransaction s env).state.transaction.supervisedBy = none ∧
      (handleLogTransaction s env).state.transaction.timeStart = none ∧
      (handleLogTransaction s env).state.transaction.timeEnd = none ∧
      (handleLogTransaction s env).state.transaction.curingTemp = none ∧
      (handleLogTransaction s env).state.transaction.reworkScrap = none := by
  obtain ⟨vs, -, -, -, hrun⟩ :=
    submitBody_of_success s env pdata updatedProduct hd hp product hprod
  rw [handleLogTransaction_of_valid s env hv, hrun]
  exact ⟨rfl, rfl, rfl, rfl, rfl, rfl, rfl, rfl, rfl, rfl, rfl, rfl⟩

/-- Witness for C9 (amended): the sample submit. -/
theorem success_replaces_transaction_witness :
    ValidSubmit sampleState ∧ DetailIs sampleEnv samplePData ∧
      PrimarySucceeds sampleEnv sampleUpdated ∧
      (handleLogTransaction sampleState sampleEnv).state.transaction = resetTransaction :=
  ⟨sampleState_valid, ⟨true, rfl⟩, rfl,
    (success_replaces_transaction sampleState sampleEnv samplePData sampleUpdated _
      sampleState_valid ⟨true, rfl⟩ rfl rfl).1⟩

/-! ## Failure of the primary submission (C10) -/

/-- The fallback of `catch` (line 181) never yields the empty string. -/
theorem jsOr_fallback_ne_empty (m : String) : jsOr m "Failed to log transaction." ≠ "" := by
  unfold jsOr
  split
  · decide
  · assumption

/-- JavaScript `a || b` is `a` when `a` is a non-empty string. -/
theorem jsOr_of_ne_empty (a b : String) (h : a ≠ "") : jsOr a b = a := by
  simp [jsOr, h]

/-- The run of a valid submit whose detail arrived, when the `try` block throws
at the primary submission with message `m`: the message shown is `m`, or the
fallback of line 181 when `m` is empty. -/
theorem submitBody_of_primary_throw (s : State) (env : SubmitEnv) (pdata : PData) (m : String)
    (hd : DetailIs env pdata)
    (hp : (∃ e, env.primary = FetchResult.networkError e ∧ m = e) ∨
      (∃ e, env.primary = FetchResult.response false (Body.parseError e) ∧ m = e) ∨
      ∃ d, env.primary = FetchResult.response false (Body.json d) ∧
        m = jsOrUndef d.message "Failed to log product transaction.") :
    (submitBody s env).state.errorMessage = jsOr m "Failed to log transaction." := by
  obtain ⟨ok, hd⟩ := hd
  rcases hp with ⟨e, hp, rfl⟩ | ⟨e, hp, rfl⟩ | ⟨d, hp, rfl⟩ <;>
    simp only [submitBody, tryBlock, hd, hp]

/-- Counterexample to C10 as stated: the primary submission of the sample
submit is answered with a non-success response whose body is an HTML page.
`productResponse.json()` throws at line 135, and the error message set is the
message of that parse error: it is not a message field of the response (the
body has none) and it is neither of the two fixed fallback strings. -/
theorem unreadable_error_body_message :
    ValidSubmit sampleState ∧ DetailIs badGatewayEnv samplePData ∧
      badGatewayEnv.primary
        = FetchResult.response false (Body.parseError "Unexpected token < in JSON at position 0") ∧
      (handleLogTransaction sampleState badGatewayEnv).state.errorMessage
        = "Unexpected token < in JSON at position 0" ∧
      (handleLogTransaction sampleState badGatewayEnv).state.errorMessage
        ≠ "Failed to log product transaction." ∧
      (handleLogTransaction sampleState badGatewayEnv).state.errorMessage
        ≠ "Failed to log transaction." := by
  have h : (handleLogTransaction sampleState badGatewayEnv).state.errorMessage
      = "Unexpected token < in JSON at position 0" := by
    rw [handleLogTransaction_of_valid sampleState badGatewayEnv sampleState_valid,
      submitBody_of_primary_throw sampleState badGatewayEnv samplePData
        "Unexpected token < in JSON at position 0" ⟨true, rfl⟩ (Or.inr (Or.inl ⟨_, rfl, rfl⟩))]
    decide
  refine ⟨sampleState_valid, ⟨true, rfl⟩, rfl, h, ?_, ?_⟩
  · rw [h]
    decide
  · rw [h]
    decide

/-- C10, amended: for a valid submit whose primary submission was sent: when
the response is a non-success one whose body can be read, `errorDetails`, the
error message set is `errorDetails.message` if that is a non-empty string and
the fixed string "Failed to log product transaction." if it is missing or
empty; when the response is a non-success one whose body cannot be read, the
error message set is the message of the parse error, and the fixed string
"Failed to log transaction." if that message is empty; and whenever the
primary submission fails (the request is rejected by the network, or the
response is a non-success one, readable or not) the error message set is not
the empty string. -/
theorem primary_failure_message (s : State) (env : SubmitEnv) (pdata : PData)
    (hv : ValidSubmit s) (hd : DetailIs env pdata) :
    (∀ errorDetails, env.primary = FetchResult.response false (Body.json errorDetails) →
        (∀ m, errorDetails.message = some m → m ≠ "" →
          (handleLogTransaction s env).state.errorMessage = m) ∧
        (errorDetails.message = none ∨ errorDetails.message = some "" →
          (handleLogTransaction s env).state.errorMessage
            = "Failed to log product transaction.")) ∧
      (∀ e, env.primary = FetchResult.response false (Body.parseError e) →
        (e ≠ "" → (handleLogTransaction s env).state.errorMessage = e) ∧
        (e = "" → (handleLogTransaction s env).state.errorMessage
          = "Failed to log transaction.")) ∧
      (PrimaryFails env → (handleLogTransaction s env).state.errorMessage ≠ "") := by
  rw [handleLogTransaction_of_valid s env hv]
  refine ⟨?_, ?_, ?_⟩
  rotate_left
  · intro e hp
    have h := submitBody_of_primary_throw s env pdata e hd (Or.inr (Or.inl ⟨e, hp, rfl⟩))
    constructor
    · intro hne
      rw [h, jsOr_of_ne_empty e _ hne]
    · intro he
      rw [h, he]
      rfl
  rotate_left
  · intro errorDetails hp
    have h := submitBody_of_primary_throw s env pdata _ hd (Or.inr (Or.inr ⟨errorDetails, hp, rfl⟩))
    constructor
    · intro m hm hne
      rw [h, hm]
      simp [jsOrUndef, jsOr, hne]
    · rintro (hm | hm) <;> rw [h, hm] <;> decide
  · rintro (⟨e, hp⟩ | ⟨body, hp⟩)
    · rw [submitBody_of_primary_throw s env pdata e hd (Or.inl ⟨e, hp, rfl⟩)]
      exact jsOr_fallback_ne_empty e
    · cases body with
      | parseError e =>
        rw [submitBody_of_primary_throw s env pdata e hd (Or.inr (Or.inl ⟨e, hp, rfl⟩))]
        exact jsOr_fallback_ne_empty e
      | json d =>
        rw [submitBody_of_primary_throw s env pdata _ hd (Or.inr (Or.inr ⟨d, hp, rfl⟩))]
        exact jsOr_fallback_ne_empty _

/-- Witness for C10 (amended): the service refuses the sample submit with the
message "Insufficient balance", which is what the component then shows. -/
theorem primary_failure_message_witness :
    ValidSubmit sampleState ∧ DetailIs refusingEnv samplePData ∧ PrimaryFails refusingEnv ∧
      (handleLogTransaction sampleState refusingEnv).state.errorMessage
        = "Insufficient balance" ∧
      (handleLogTransaction sampleState refusingEnv).state.errorMessage ≠ "" :=
  ⟨sampleState_valid, ⟨true, rfl⟩, Or.inr ⟨_, rfl⟩,
    ((primary_failure_message sampleState refusingEnv samplePData sampleState_valid
      ⟨true, rfl⟩).1 _ rfl).1 "Insufficient balance" rfl (by decide),
    (primary_failure_message sampleState refusingEnv samplePData sampleState_valid
      ⟨true, rfl⟩).2.2 (Or.inr ⟨_, rfl⟩)⟩

/-! ## More lemmas on submit -/

/-- The handler is the four checks followed by lines 116-184. -/
theorem handleLogTransaction_eq (s : State) (env : SubmitEnv) :
    handleLogTransaction s env
      = match validationAlert s with
        | some msg => rejectWith s msg
        | none => submitBody s env := by
  unfold handleLogTransaction validationAlert
  split_ifs <;> rfl

/-- The checks of lines 96-114 pass exactly when the preconditions hold. -/
theorem validationAlert_eq_none_iff (s : State) : validationAlert s = none ↔ ValidSubmit s := by
  unfold validationAlert ValidSubmit
  constructor
  · intro h
    split_ifs at h with h1 h2 h3 h4
    simp only [Bool.or_eq_true, decide_eq_true_eq, not_or, not_lt] at h2
    simp only [Bool.and_eq_true, decide_eq_true_eq, not_and] at h3
    refine ⟨by simpa using h1, h2.1, h2.2, ?_, h4⟩
    by_cases h0 : s.transaction.inward = 0
    · exact Or.inr (h3 h0)
    · exact Or.inl h0
  · rintro ⟨h1, h2, h3, h4, h5⟩
    have hneg : (decide (s.transaction.inward < 0) || decide (s.transaction.outward < 0))
        = false := by
      simp [h2, h3]
    have hzero : (decide (s.transaction.inward = 0) && decide (s.transaction.outward = 0))
        = false := by
      rcases h4 with h4 | h4 <;> simp [h4]
    simp [h1, hneg, hzero, h5]

/-- Every message of `validationAlert` is one of the four. -/
theorem validationAlert_mem (s : State) (msg : String) (h : validationAlert s = some msg) :
    msg ∈ validationMessages := by
  unfold validationAlert at h
  split_ifs at h <;> simp only [Option.some.injEq] at h <;> subst h <;>
    simp [validationMessages]

/-- A submit that violates a precondition is rejected. -/
theorem rejected_of_not_valid (s : State) (env : SubmitEnv) (h : ¬ ValidSubmit s) :
    Rejected s (handleLogTransaction s env) := by
  rw [handleLogTransaction_eq]
  cases hv : validationAlert s with
  | none => exact absurd ((validationAlert_eq_none_iff s).mp hv) h
  | some msg => exact rejectWith_rejected s msg (validationAlert_mem s msg hv)

/-- The state after lines 116-184 is the completion applied to the started state. -/
theorem submitBody_state (s : State) (env : SubmitEnv) :
    (submitBody s env).state
      = submitSettle (s.selectedProductId.getD "") s.transaction env (submitStart s) :=
  rfl

/-- The run of a valid submit whose detail arrived and whose primary submission
failed, spelled out: only the error message and the busy flag are written. -/
theorem submitBody_of_primary_failure (s : State) (env : SubmitEnv) (pdata : PData)
    (hd : DetailIs env pdata) (hp : PrimaryFails env) :
    ∃ m, submitBody s env
      = { state := { s with loading := false,
                            errorMessage := jsOr m "Failed to log transaction." },
          alerts := [],
          requests := [Request.getProduct (s.selectedProductId.getD ""),
            Request.postLog (s.selectedProductId.getD "") s.transaction],
          settled := [] } := by
  obtain ⟨ok, hd⟩ := hd
  rcases hp with ⟨e, hp⟩ | ⟨body, hp⟩
  · exact ⟨e, by simp only [submitBody, tryBlock, hd, hp]; rfl⟩
  · cases body with
    | parseError e => exact ⟨e, by simp only [submitBody, tryBlock, hd, hp]; rfl⟩
    | json d =>
      exact ⟨jsOrUndef d.message "Failed to log product transaction.",
        by simp only [submitBody, tryBlock, hd, hp]; rfl⟩

/-- With the detail in, the requests of lines 116-184 are the detail request,
one primary POST, and cascade requests only. -/
theorem submitBody_requests (s : State) (env : SubmitEnv) (pdata : PData)
    (hd : DetailIs env pdata) :
    ∃ rest, (submitBody s env).requests
        = [Request.getProduct (s.selectedProductId.getD ""),
            Request.postLog (s.selectedProductId.getD "") s.transaction] ++ rest ∧
      rest.filter Request.isPrimary = [] := by
  by_cases hf : PrimaryFails env
  · obtain ⟨m, h⟩ := submitBody_of_primary_failure s env pdata hd hf
    exact ⟨[], by rw [h]; rfl, rfl⟩
  · obtain ⟨ok, hd⟩ := hd
    have hmap : (pdata.formulations.map
        (formulaRequest s.transaction)).filter Request.isPrimary = [] := by
      induction pdata.formulations with
      | nil => rfl
      | cons f rest ih => simp [formulaRequest, Request.isPrimary, List.filter_cons]
    cases hp : env.primary with
    | networkError e => exact absurd (Or.inl ⟨e, hp⟩) hf
    | response b body =>
      cases b with
      | false => exact absurd (Or.inr ⟨body, hp⟩) hf
      | true =>
        cases body with
        | parseError e => exact ⟨[], by simp only [submitBody, tryBlock, hd, hp]; rfl, rfl⟩
        | json updatedProduct =>
          cases hprod : pdata.product with
          | none =>
            refine ⟨[], ?_, rfl⟩
            rw [submitBody_of_missing_product s env pdata updatedProduct ⟨ok, hd⟩ hp hprod]
            rfl
          | some product =>
            refine ⟨pdata.formulations.map (formulaRequest s.transaction), ?_, hmap⟩
            obtain ⟨vs, -, -, -, h⟩ :=
              submitBody_of_success s env pdata updatedProduct ⟨ok, hd⟩ hp product hprod
            rw [h]

/-- The state with one row displayed meets the preconditions of submit. -/
theorem loggedState_valid : ValidSubmit loggedState := sampleState_valid

/-! ## Failure and success of the primary submission (C11, C12) -/

/-- C11: for a valid submit whose primary submission fails (the request is
rejected by the network, or the response is a non-success one), the displayed
log list and the transaction input after submit are the ones from before, the
requests issued are the detail request and the primary POST only, and no
cascade request is issued. -/
theorem primary_failure_preserves_view (s : State) (env : SubmitEnv) (pdata : PData)
    (hv : ValidSubmit s) (hd : DetailIs env pdata) (hp : PrimaryFails env) :
    (handleLogTransaction s env).state.logs = s.logs ∧
      (handleLogTransaction s env).state.transaction = s.transaction ∧
      (handleLogTransaction s env).cascades = [] ∧
      (handleLogTransaction s env).requests
        = [Request.getProduct (s.selectedProductId.getD ""),
            Request.postLog (s.selectedProductId.getD "") s.transaction] := by
  obtain ⟨m, h⟩ := submitBody_of_primary_failure s env pdata hd hp
  rw [handleLogTransaction_of_valid s env hv, h]
  exact ⟨rfl, rfl, rfl, rfl⟩

/-- Witness for C11: the service refuses the submit while one row is displayed. -/
theorem primary_failure_preserves_view_witness :
    ValidSubmit loggedState ∧ DetailIs refusingEnv samplePData ∧ PrimaryFails refusingEnv ∧
      (handleLogTransaction loggedState refusingEnv).state.logs = [sampleLog] ∧
      (handleLogTransaction loggedState refusingEnv).state.transaction = sampleTransaction ∧
      (handleLogTransaction loggedState refusingEnv).cascades = [] :=
  ⟨loggedState_valid, ⟨true, rfl⟩, Or.inr ⟨_, rfl⟩,
    (primary_failure_preserves_view loggedState refusingEnv samplePData loggedState_valid
      ⟨true, rfl⟩ (Or.inr ⟨_, rfl⟩)).1,
    (primary_failure_preserves_view loggedState refusingEnv samplePData loggedState_valid
      ⟨true, rfl⟩ (Or.inr ⟨_, rfl⟩)).2.1,
    (primary_failure_preserves_view loggedState refusingEnv samplePData loggedState_valid
      ⟨true, rfl⟩ (Or.inr ⟨_, rfl⟩)).2.2.1⟩

/-- C12: for a valid submit whose primary submission succeeds, the displayed
log list after submit is the list `logs` of the response body, the empty list
when the body has no `logs`; it is the same whatever list was displayed
before the submit. -/
theorem success_replaces_logs (s : State) (env : SubmitEnv) (pdata : PData)
    (updatedProduct : PostBody) (hv : ValidSubmit s) (hd : DetailIs env pdata)
    (hp : PrimarySucceeds env updatedProduct) :
    (∀ logs, updatedProduct.logs = some logs →
        (handleLogTransaction s env).state.logs = logs) ∧
      (updatedProduct.logs = none → (handleLogTransaction s env).state.logs = []) ∧
      ∀ before : List TransactionLog,
        (handleLogTransaction { s with logs := before } env).state.logs
          = (handleLogTransaction s env).state.logs := by
  have key : ∀ before : List TransactionLog,
      (handleLogTransaction { s with logs := before } env).state.logs
        = updatedProduct.logs.getD [] := by
    intro before
    rw [handleLogTransaction_of_valid { s with logs := before } env hv]
    cases hprod : pdata.product with
    | none =>
      rw [submitBody_of_missing_product { s with logs := before } env pdata updatedProduct
        hd hp hprod]
    | some product =>
      obtain ⟨vs, -, -, -, h⟩ :=
        submitBody_of_success { s with logs := before } env pdata updatedProduct hd hp
          product hprod
      rw [h]
  have hs : (handleLogTransaction s env).state.logs = updatedProduct.logs.getD [] :=
    key s.logs
  refine ⟨?_, ?_, ?_⟩
  · intro logs hl
    rw [hs, hl]
    rfl
  · intro hl
    rw [hs, hl]
    rfl
  · intro before
    rw [key before, hs]

/-- Witness for C12: the sample submit, run with one row displayed, shows the
row list of the response. -/
theorem success_replaces_logs_witness :
    ValidSubmit sampleState ∧ DetailIs sampleEnv samplePData ∧
      PrimarySucceeds sampleEnv sampleUpdated ∧
      (handleLogTransaction sampleState sampleEnv).state.logs = [sampleLog] ∧
      (handleLogTransaction { sampleState with logs := [sampleLog, sampleLog] } sampleEnv).state.logs
        = (handleLogTransaction sampleState sampleEnv).state.logs :=
  ⟨sampleState_valid, ⟨true, rfl⟩, rfl,
    (success_replaces_logs sampleState sampleEnv samplePData sampleUpdated sampleState_valid
      ⟨true, rfl⟩ rfl).1 [sampleLog] rfl,
    (success_replaces_logs sampleState sampleEnv samplePData sampleUpdated sampleState_valid
      ⟨true, rfl⟩ rfl).2.2 [sampleLog, sampleLog]⟩

/-! ## The end of a submit (C18) and completeness of validation (C19) -/

/-- The check that stops the sample form with empty particulars. -/
theorem blankState_alert : validationAlert blankState = some "Particulars are required." := by
  simp [validationAlert, blankState, sampleState, sampleTransaction, noSelection]

/-- The first request of lines 116-184 is the detail request, whatever happens. -/
theorem submitBody_first_request (s : State) (env : SubmitEnv) :
    (submitBody s env).requests.head? = some (Request.getProduct (s.selectedProductId.getD "")) := by
  simp only [submitBody, tryBlock]
  split
  · rfl
  · rfl
  · split
    · rfl
    · rfl
    · rfl
    · rfl
    · split
      · rfl
      · split <;> rfl

/-- When the detail request fails or its body cannot be read, lines 116-184 end
with a non-empty error message. -/
theorem submitBody_of_detail_failure (s : State) (env : SubmitEnv)
    (h : ∀ pdata, ¬ DetailIs env pdata) : (submitBody s env).state.errorMessage ≠ "" := by
  cases hd : env.detail with
  | networkError e =>
    simp only [submitBody, tryBlock, hd]
    exact jsOr_fallback_ne_empty e
  | response ok body =>
    cases body with
    | parseError e =>
      simp only [submitBody, tryBlock, hd]
      exact jsOr_fallback_ne_empty e
    | json pdata => exact absurd ⟨ok, hd⟩ (h pdata)

/-- Counterexample to C18 as stated: the sample form with empty particulars
fails in validation; the submit shows an alert and ends with the error message
still empty, so the failure does not set the error flag. -/
theorem validation_failure_sets_no_error_flag :
    ¬ ValidSubmit blankState ∧
      (handleLogTransaction blankState offlineEnv).alerts = ["Particulars are required."] ∧
      (handleLogTransaction blankState offlineEnv).state.errorMessage = "" := by
  refine ⟨?_, ?_, ?_⟩
  · intro h
    have := (validationAlert_eq_none_iff blankState).mpr h
    rw [blankState_alert] at this
    exact Option.noConfusion this
  · rw [handleLogTransaction_eq, blankState_alert]
    rfl
  · rw [handleLogTransaction_eq, blankState_alert]
    rfl

/-- C18, amended: a submit that passes validation ends with the busy flag
cleared and no alert.  Its error message is empty when the detail response
carries the product and the primary submission succeeds; it is non-empty in
every other case: when the detail request fails or its body cannot be read,
when the detail body has no product, when the primary submission fails (on the
network or with a non-success response), and when the primary response is a
success whose body cannot be read.  A submit that violates a precondition
writes no state cell: it shows one alert, and the error message and the busy
flag stay as they were. -/
theorem submit_ends_idle (s : State) (env : SubmitEnv) :
    (ValidSubmit s →
        (handleLogTransaction s env).state.loading = false ∧
        (handleLogTransaction s env).alerts = [] ∧
        (∀ pdata updatedProduct product, DetailIs env pdata → pdata.product = some product →
          PrimarySucceeds env updatedProduct →
          (handleLogTransaction s env).state.errorMessage = "") ∧
        (∀ pdata updatedProduct, DetailIs env pdata → pdata.product = none →
          PrimarySucceeds env updatedProduct →
          (handleLogTransaction s env).state.errorMessage ≠ "") ∧
        (∀ pdata e, DetailIs env pdata →
          env.primary = FetchResult.response true (Body.parseError e) →
          (handleLogTransaction s env).state.errorMessage ≠ "") ∧
        (∀ pdata, DetailIs env pdata → PrimaryFails env →
          (handleLogTransaction s env).state.errorMessage ≠ "") ∧
        ((∀ pdata, ¬ DetailIs env pdata) →
          (handleLogTransaction s env).state.errorMessage ≠ "")) ∧
      (¬ ValidSubmit s →
        Rejected s (handleLogTransaction s env) ∧
        (handleLogTransaction s env).state.errorMessage = s.errorMessage ∧
        (handleLogTransaction s env).state.loading = s.loading) := by
  constructor
  · intro hv
    rw [handleLogTransaction_of_valid s env hv]
    refine ⟨rfl, rfl, ?_, ?_, ?_, ?_, submitBody_of_detail_failure s env⟩
    · intro pdata updatedProduct product hd hprod hp
      obtain ⟨vs, -, -, -, h⟩ :=
        submitBody_of_success s env pdata updatedProduct hd hp product hprod
      rw [h]
    · intro pdata updatedProduct hd hprod hp
      rw [submitBody_of_missing_product s env pdata updatedProduct hd hp hprod]
      exact jsOr_fallback_ne_empty env.typeErrorMessage
    · rintro pdata e ⟨ok, hd⟩ hp
      simp only [submitBody, tryBlock, hd, hp]
      exact jsOr_fallback_ne_empty e
    · intro pdata hd hp
      obtain ⟨m, h⟩ := submitBody_of_primary_failure s env pdata hd hp
      rw [h]
      exact jsOr_fallback_ne_empty m
  · intro hv
    have h := rejected_of_not_valid s env hv
    exact ⟨h, by rw [h.1], by rw [h.1]⟩

/-- C19: in a state whose selected product id is `productId` (a non-empty
string), with inward and outward at least 0, one of them nonzero and
particulars non-empty, submit is not rejected: no alert is shown, the first
request issued is the detail request of that product, and when the detail
response arrives with a readable body exactly one primary POST is issued, to
the log endpoint of `productId`, its body the transaction input as it is, all
fields included. -/
theorem valid_submit_posts_transaction (s : State) (env : SubmitEnv) (productId : String)
    (hsel : s.selectedProductId = some productId) (hid : productId ≠ "")
    (hin : 0 ≤ s.transaction.inward) (hout : 0 ≤ s.transaction.outward)
    (hnz : s.transaction.inward ≠ 0 ∨ s.transaction.outward ≠ 0)
    (hpart : s.transaction.particulars ≠ "") :
    (handleLogTransaction s env).alerts = [] ∧
      ¬ Rejected s (handleLogTransaction s env) ∧
      (handleLogTransaction s env).requests.head? = some (Request.getProduct productId) ∧
      ∀ pdata, DetailIs env pdata →
        (handleLogTransaction s env).requests.filter Request.isPrimary
          = [Request.postLog productId s.transaction] := by
  have hv : ValidSubmit s := ⟨by simp [hsel, noSelection, hid], hin, hout, hnz, hpart⟩
  have hget : s.selectedProductId.getD "" = productId := by rw [hsel]; rfl
  have hfirst := submitBody_first_request s env
  rw [hget] at hfirst
  rw [handleLogTransaction_of_valid s env hv]
  refine ⟨rfl, ?_, hfirst, ?_⟩
  · rintro ⟨-, hreq, -⟩
    rw [hreq] at hfirst
    exact Option.noConfusion hfirst
  · intro pdata hd
    obtain ⟨rest, h, hrest⟩ := submitBody_requests s env pdata hd
    rw [h, hget]
    simp [List.filter_cons, Request.isPrimary, hrest]

/-- Witness for C19: the sample form, product p1 selected. -/
theorem valid_submit_posts_transaction_witness :
    sampleState.selectedProductId = some "p1" ∧
      (handleLogTransaction sampleState sampleEnv).alerts = [] ∧
      (handleLogTransaction sampleState sampleEnv).requests.head?
        = some (Request.getProduct "p1") ∧
      (handleLogTransaction sampleState sampleEnv).requests.filter Request.isPrimary
        = [Request.postLog "p1" sampleTransaction] :=
  ⟨rfl,
    (valid_submit_posts_transaction sampleState sampleEnv "p1" rfl (by decide)
      sampleState_valid.2.1 sampleState_valid.2.2.1 sampleState_valid.2.2.2.1
      sampleState_valid.2.2.2.2).1,
    (valid_submit_posts_transaction sampleState sampleEnv "p1" rfl (by decide)
      sampleState_valid.2.1 sampleState_valid.2.2.1 sampleState_valid.2.2.2.1
      sampleState_valid.2.2.2.2).2.2.1,
    (valid_submit_posts_transaction sampleState sampleEnv "p1" rfl (by decide)
      sampleState_valid.2.1 sampleState_valid.2.2.1 sampleState_valid.2.2.2.1
      sampleState_valid.2.2.2.2).2.2.2 samplePData ⟨true, rfl⟩⟩

/-! ## Selection (C13) -/

/-- What `find` returns is the first element that passes the test. -/
theorem find?_first {α : Type} (p : α → Bool) (l : List α) (a : α) (h : l.find? p = some a) :
    p a = true ∧ ∃ before after, l = before ++ a :: after ∧ ∀ x ∈ before, p x = false := by
  induction l with
  | nil => simp at h
  | cons x rest ih =>
    by_cases hx : p x = true
    · rw [List.find?_cons_of_pos _ hx] at h
      obtain rfl : x = a := Option.some.inj h
      exact ⟨hx, [], rest, rfl, by simp⟩
    · rw [List.find?_cons_of_neg _ hx] at h
      obtain ⟨ha, before, after, hl, hb⟩ := ih h
      refine ⟨ha, x :: before, after, by rw [hl]; rfl, ?_⟩
      intro y hy
      rcases List.mem_cons.mp hy with rfl | hy
      · simpa using hx
      · exact hb y hy

/-- Counterexample to C13 as stated: the sample list has no product with id
"zz", yet after `handleProductSelection("zz")` the selected id is "zz", not
`null`: the check of line 96 passes, and a submit of the filled-in form shows
no alert and requests the detail of "zz". -/
theorem unknown_id_stays_selected :
    (∀ product ∈ sampleState.products, product._id ≠ "zz") ∧
      (handleProductSelection sampleState "zz" sampleLogsEnv).state.selectedProductId
        = some "zz" ∧
      noSelection (handleProductSelection sampleState "zz" sampleLogsEnv).state.selectedProductId
        = false ∧
      (handleLogTransaction (handleProductSelection sampleState "zz" sampleLogsEnv).state
        sampleEnv).alerts = [] ∧
      (handleLogTransaction (handleProductSelection sampleState "zz" sampleLogsEnv).state
        sampleEnv).requests.head? = some (Request.getProduct "zz") := by
  have hv : ValidSubmit (handleProductSelection sampleState "zz" sampleLogsEnv).state :=
    ⟨by decide, sampleState_valid.2.1, sampleState_valid.2.2.1, sampleState_valid.2.2.2.1,
      sampleState_valid.2.2.2.2⟩
  refine ⟨by decide, rfl, by decide, ?_, ?_⟩
  · rw [handleLogTransaction_of_valid _ sampleEnv hv]
    rfl
  · rw [handleLogTransaction_of_valid _ sampleEnv hv]
    exact submitBody_first_request _ sampleEnv

/-- C13, amended: for every product list and every id,
`handleProductSelection(id)` sets `selectedProductId` to the id and
`selectedProduct` to the first product of the list with that id (`undefined`
when there is none), shows no alert, and starts `fetchLogs(id)`: the logs
request is issued and, once it is answered, the detail request.  When no
product has the id, `selectedProduct` is `undefined` while `selectedProductId`
is the id, so for a non-empty id the check of line 96 does not take the
component for one with nothing selected. -/
theorem selection_sets_id_and_fetches (s : State) (productId : String) (env : LogsEnv) :
    (handleProductSelection s productId env).state.selectedProductId = some productId ∧
      (handleProductSelection s productId env).state.selectedProduct
        = s.products.find? (fun product => product._id = productId) ∧
      (handleProductSelection s productId env).alerts = [] ∧
      (handleProductSelection s productId env).requests.head?
        = some (Request.getLogs productId) ∧
      ((∃ ok body, env.logs = FetchResult.response ok body) →
        (handleProductSelection s productId env).requests
          = [Request.getLogs productId, Request.getProduct productId]) ∧
      ((∃ product ∈ s.products, product._id = productId) →
        ∃ chosen before after,
          (handleProductSelection s productId env).state.selectedProduct = some chosen ∧
          chosen._id = productId ∧ s.products = before ++ chosen :: after ∧
          ∀ product ∈ before, product._id ≠ productId) ∧
      ((∀ product ∈ s.products, product._id ≠ productId) →
        (handleProductSelection s productId env).state.selectedProduct = none ∧
        (productId ≠ "" →
          noSelection (handleProductSelection s productId env).state.selectedProductId
            = false)) := by
  have hid : (handleProductSelection s productId env).state.selectedProductId
      = some productId := by
    simp only [handleProductSelection, fetchLogs, fetchLogsSettle]
    split <;> rfl
  have hprod : (handleProductSelection s productId env).state.selectedProduct
      = s.products.find? (fun product => product._id = productId) := by
    simp only [handleProductSelection, fetchLogs, fetchLogsSettle]
    split <;> rfl
  refine ⟨hid, hprod, rfl, ?_, ?_, ?_, ?_⟩
  · simp only [handleProductSelection, fetchLogs, fetchLogsRequests]
    split <;> rfl
  · rintro ⟨ok, body, h⟩
    simp only [handleProductSelection, fetchLogs, fetchLogsRequests, h]
  · rintro ⟨product, hmem, hp⟩
    cases hf : s.products.find? (fun product => decide (product._id = productId)) with
    | none =>
      have := List.find?_eq_none.mp hf product hmem
      simp [hp] at this
    | some chosen =>
      obtain ⟨hc, before, after, hl, hb⟩ := find?_first _ _ _ hf
      refine ⟨chosen, before, after, by rw [hprod, hf], by simpa using hc, hl, ?_⟩
      intro x hx
      simpa using hb x hx
  · intro hnone
    constructor
    · rw [hprod, List.find?_eq_none]
      intro x hx
      simpa using hnone x hx
    · intro hne
      rw [hid]
      simp [noSelection, hne]

/-! ## Search (C15) -/

/-- Every string includes the empty string. -/
theorem includes_empty (s : String) : includes s "" = true := by
  simp [includes]

/-- The list `handleSearch` stores, in one formula for the empty and the
non-empty query. -/
theorem handleSearch_filteredProducts (lc : LowerCase) (s : State) (q : String) :
    (handleSearch lc s q).filteredProducts = s.products.filter (matchesQuery lc q) := by
  unfold handleSearch
  split
  · next h =>
    subst h
    symm
    apply List.filter_eq_self.mpr
    intro product _
    simp [matchesQuery, lc.empty, includes_empty]
  · rfl

/-- C15: for every product list P and query q, `handleSearch` stores as the
filtered list exactly the products of P whose lower-cased `articleName`
contains the lower-cased q as a contiguous run of characters, in the order of
P; so the empty query gives all of P, a query contained in no lower-cased name
gives the empty list, and two queries with the same lower-casing give the same
list.  The query itself is stored in `searchQuery`. -/
theorem search_filters_by_name (lc : LowerCase) (s : State) (q : String) :
    (handleSearch lc s q).filteredProducts
        = s.products.filter (fun product =>
            decide ((lc.toLowerCase q).data <:+: (lc.toLowerCase product.articleName).data)) ∧
      (handleSearch lc s q).filteredProducts.Sublist s.products ∧
      (∀ product, product ∈ (handleSearch lc s q).filteredProducts ↔
        product ∈ s.products ∧
          (lc.toLowerCase q).data <:+: (lc.toLowerCase product.articleName).data) ∧
      (handleSearch lc s "").filteredProducts = s.products ∧
      ((∀ product ∈ s.products,
          ¬ (lc.toLowerCase q).data <:+: (lc.toLowerCase product.articleName).data) →
        (handleSearch lc s q).filteredProducts = []) ∧
      (∀ q2, lc.toLowerCase q = lc.toLowerCase q2 →
        (handleSearch lc s q).filteredProducts = (handleSearch lc s q2).filteredProducts) ∧
      (handleSearch lc s q).searchQuery = q := by
  have hmain := handleSearch_filteredProducts lc s q
  refine ⟨hmain, ?_, ?_, ?_, ?_, ?_, ?_⟩
  · rw [hmain]
    exact List.filter_sublist _
  · intro product
    rw [hmain, List.mem_filter]
    simp [matchesQuery, includes]
  · rw [handleSearch_filteredProducts]
    apply List.filter_eq_self.mpr
    intro product _
    simp [matchesQuery, lc.empty, includes_empty]
  · intro hnone
    rw [hmain, List.filter_eq_nil_iff]
    intro product hp
    simpa [matchesQuery, includes] using hnone product hp
  · intro q2 hq
    rw [hmain, handleSearch_filteredProducts lc s q2]
    have hfun : matchesQuery lc q = matchesQuery lc q2 := by
      funext product
      simp only [matchesQuery, hq]
    rw [hfun]
  · unfold handleSearch
    split <;> rfl

/-- The search on the sample list, whose names are ASCII: "GAS" finds Gasket
whatever the case, "xyz" finds nothing. -/
theorem search_sample :
    (handleSearch asciiLowerCase sampleState "GAS").filteredProducts = [sampleProduct] ∧
      (handleSearch asciiLowerCase sampleState "gas").filteredProducts = [sampleProduct] ∧
      (handleSearch asciiLowerCase sampleState "xyz").filteredProducts = [] ∧
      (handleSearch asciiLowerCase sampleState "").filteredProducts = [sampleProduct] := by
  refine ⟨?_, ?_, ?_, ?_⟩ <;> decide

/-! ## The logs request of fetchLogs (C17) -/

/-- Counterexample to C17 as stated: with the logs request failing on the
network and the detail response carrying one row, `fetchLogs` ends with no row
displayed and the error message set, and never issues the detail request;
without the logs call the row would be displayed and no error shown. -/
theorem logs_call_failure_is_observable :
    (fetchLogs sampleState "p1" logsDownEnv).state.logs = [] ∧
      (fetchLogs sampleState "p1" logsDownEnv).state.errorMessage
        = "Failed to load transaction logs." ∧
      (fetchLogs sampleState "p1" logsDownEnv).requests = [Request.getLogs "p1"] ∧
      (fetchLogsDetailOnly sampleState logsDownEnv.detail).logs = [sampleLog] ∧
      (fetchLogsDetailOnly sampleState logsDownEnv.detail).errorMessage = "" ∧
      (fetchLogs sampleState "p1" logsDownEnv).state
        ≠ fetchLogsDetailOnly sampleState logsDownEnv.detail := by
  refine ⟨rfl, rfl, rfl, rfl, rfl, ?_⟩
  intro h
  have hl := congrArg State.errorMessage h
  exact absurd hl (by decide)

/-- C17, amended: the body of the logs response is not used, but the call can
fail.  When the logs request is answered and its body can be read, whatever the
body and the `ok` flag are, the state after `fetchLogs` is the one the detail
response alone determines (the state the component would be in had the call
not been made).  When the logs request fails on the network or its body
cannot be read, `fetchLogs` ends with the displayed logs unchanged, the error
message "Failed to load transaction logs." and the busy flag cleared, whatever
the detail response is; on a network failure the detail request is not issued
at all, while an answered logs request is followed by the detail request. -/
theorem logs_call_effect (s : State) (productId : String) (env : LogsEnv) :
    ((∃ ok data, env.logs = FetchResult.response ok (Body.json data)) →
        (fetchLogs s productId env).state = fetchLogsDetailOnly s env.detail) ∧
      (((∃ m, env.logs = FetchResult.networkError m) ∨
          ∃ ok m, env.logs = FetchResult.response ok (Body.parseError m)) →
        (fetchLogs s productId env).state
          = { s with errorMessage := "Failed to load transaction logs.", loading := false }) ∧
      ((∃ m, env.logs = FetchResult.networkError m) →
        (fetchLogs s productId env).requests = [Request.getLogs productId]) ∧
      ((∃ ok body, env.logs = FetchResult.response ok body) →
        (fetchLogs s productId env).requests
          = [Request.getLogs productId, Request.getProduct productId]) := by
  refine ⟨?_, ?_, ?_, ?_⟩
  rotate_left 2
  · rintro ⟨m, h⟩
    simp only [fetchLogs, fetchLogsRequests, h]
  · rintro ⟨ok, body, h⟩
    simp only [fetchLogs, fetchLogsRequests, h]
  · rintro ⟨ok, data, h⟩
    cases hd : env.detail with
    | networkError e => simp only [fetchLogs, fetchLogsSettle, fetchLogsResult, h, hd,
        fetchLogsDetailOnly]
    | response okd body =>
      cases body with
      | parseError e => simp only [fetchLogs, fetchLogsSettle, fetchLogsResult, h, hd,
          fetchLogsDetailOnly]
      | json pdata =>
        cases hprod : pdata.product <;>
          simp only [fetchLogs, fetchLogsSettle, fetchLogsResult, h, hd, hprod,
            fetchLogsDetailOnly]
  · rintro (⟨m, h⟩ | ⟨ok, m, h⟩)
    · simp only [fetchLogs, fetchLogsSettle, fetchLogsResult, h]
    · cases hd : env.detail with
      | networkError e => simp only [fetchLogs, fetchLogsSettle, fetchLogsResult, h, hd]
      | response okd body =>
        cases body with
        | parseError e => simp only [fetchLogs, fetchLogsSettle, fetchLogsResult, h, hd]
        | json pdata => simp only [fetchLogs, fetchLogsSettle, fetchLogsResult, h, hd]

/-! ## One submission at a time (C16) -/

/-- The search handler does not touch the busy flag. -/
theorem handleSearch_loading (lc : LowerCase) (s : State) (q : String) :
    (handleSearch lc s q).loading = s.loading := by
  unfold handleSearch
  split <;> rfl

/-- A completion whose call is in flight leaves no call in flight and clears
the busy flag. -/
theorem Serial_of_settle (sys : Sys) (call : Pending) (ui : State) (requests : List Request)
    (h : sys.Serial) (hmem : call ∈ sys.pending) :
    Sys.Serial { sys with ui := ui, pending := sys.pending.erase call, requests := requests } := by
  rcases h with h | ⟨c, h, -⟩
  · rw [h] at hmem
    simp at hmem
  · rw [h] at hmem
    obtain rfl : call = c := by simpa using hmem
    left
    show sys.pending.erase call = []
    rw [h]
    simp

/-- A call that starts while the busy flag is clear is the only one in flight. -/
theorem pending_nil_of_idle (sys : Sys) (h : sys.Serial) (hl : sys.ui.loading = false) :
    sys.pending = [] := by
  rcases h with h | ⟨c, -, h⟩
  · exact h
  · rw [hl] at h
    exact Bool.noConfusion h

/-- Every step keeps the calls serial. -/
theorem Serial_step (sys : Sys) (e : Event) (h : sys.Serial) : (sys.step e).Serial := by
  unfold Sys.step
  split
  · next hen =>
    cases e with
    | clickProduct productId =>
      have hl : sys.ui.loading = false := by
        simp only [Sys.enabled, productListVisible, Bool.and_eq_true, Bool.not_eq_true',
          decide_eq_true_eq] at hen
        exact hen.1.1
      right
      exact ⟨Pending.logs productId, by simp [Sys.handle, pending_nil_of_idle sys h hl], rfl⟩
    | search lc value =>
      rcases h with h | ⟨c, h, hl⟩
      · exact Or.inl h
      · exact Or.inr ⟨c, h, by simp [Sys.handle, handleSearch_loading, hl]⟩
    | edit transaction =>
      rcases h with h | ⟨c, h, hl⟩
      · exact Or.inl h
      · exact Or.inr ⟨c, h, hl⟩
    | submit =>
      have hl : sys.ui.loading = false := by
        simp only [Sys.enabled, submitDisabled, Bool.and_eq_true, Bool.not_eq_true'] at hen
        exact hen.2
      have hnil := pending_nil_of_idle sys h hl
      simp only [Sys.handle]
      split
      · exact Or.inl hnil
      · right
        exact ⟨Pending.submit (sys.ui.selectedProductId.getD "") sys.ui.transaction,
          by simp [hnil], rfl⟩
    | productsSettled r =>
      simp only [Sys.enabled, decide_eq_true_eq] at hen
      exact Serial_of_settle sys _ _ sys.requests h hen
    | logsSettled productId env =>
      simp only [Sys.enabled, decide_eq_true_eq] at hen
      exact Serial_of_settle sys _ _ _ h hen
    | submitSettled productId transaction env =>
      simp only [Sys.enabled, decide_eq_true_eq] at hen
      exact Serial_of_settle sys _ _ _ h hen
  · exact h

/-- Every reachable state has its calls serial. -/
theorem Serial_of_reachable (sys : Sys) (h : Reachable sys) : sys.Serial := by
  induction h with
  | mounted => exact Or.inr ⟨Pending.products, rfl, rfl⟩
  | step sys e _ ih => exact Serial_step sys e ih

/-- The state of the sample run with the submission in flight. -/
theorem inFlightSys_pending :
    inFlightSys.pending = [Pending.submit "p1" sampleTransaction] ∧
      inFlightSys.requests
        = [Request.getProducts, Request.getLogs "p1", Request.getProduct "p1",
            Request.getProduct "p1"] := by
  constructor <;> decide

/-- The sample run with the submission in flight is reachable. -/
theorem inFlightSys_reachable : Reachable inFlightSys :=
  Reachable.step _ _ (Reachable.step _ _ (Reachable.step _ _ (Reachable.step _ _
    (Reachable.step _ _ Reachable.mounted))))

/-- C16: in every state the mounted component can reach, at most one
submission is in flight (indeed at most one asynchronous call of any kind);
while a submission is in flight the busy flag is set, the submit button is
disabled, and a further submit event changes nothing: it issues no request,
shows no alert, starts no second submission and writes no state cell.  The
same holds whenever the busy flag is set. -/
theorem one_submission_in_flight (sys : Sys) (h : Reachable sys) :
    (sys.pending.filter Pending.isSubmit).length ≤ 1 ∧
      sys.pending.length ≤ 1 ∧
      ((∃ productId transaction, Pending.submit productId transaction ∈ sys.pending) →
        sys.ui.loading = true ∧ submitDisabled sys.ui = true ∧
        (sys.step Event.submit).requests = sys.requests ∧
        (sys.step Event.submit).pending = sys.pending ∧
        sys.step Event.submit = sys) ∧
      (sys.ui.loading = true → sys.step Event.submit = sys) := by
  have hs := Serial_of_reachable sys h
  have hlen : sys.pending.length ≤ 1 := by
    rcases hs with hs | ⟨c, hs, -⟩ <;> simp [hs]
  have hbusy : sys.ui.loading = true → sys.step Event.submit = sys := by
    intro hl
    simp [Sys.step, Sys.enabled, submitDisabled, hl]
  refine ⟨le_trans (List.length_filter_le _ _) hlen, hlen, ?_, hbusy⟩
  rintro ⟨productId, transaction, hmem⟩
  have hl : sys.ui.loading = true := by
    rcases hs with hs | ⟨c, -, hl⟩
    · rw [hs] at hmem
      simp at hmem
    · exact hl
  have hstep := hbusy hl
  exact ⟨hl, hl, by rw [hstep], by rw [hstep], hstep⟩

/-- Witness for C16: the sample run with the submission of product p1 in
flight; a second submit leaves it as it is. -/
theorem one_submission_in_flight_witness :
    Reachable inFlightSys ∧
      Pending.submit "p1" sampleTransaction ∈ inFlightSys.pending ∧
      (inFlightSys.pending.filter Pending.isSubmit).length ≤ 1 ∧
      inFlightSys.ui.loading = true ∧
      inFlightSys.step Event.submit = inFlightSys :=
  ⟨inFlightSys_reachable, by rw [inFlightSys_pending.1]; exact List.mem_singleton.mpr rfl,
    (one_submission_in_flight inFlightSys inFlightSys_reachable).1,
    ((one_submission_in_flight inFlightSys inFlightSys_reachable).2.2.1
      ⟨"p1", sampleTransaction,
        by rw [inFlightSys_pending.1]; exact List.mem_singleton.mpr rfl⟩).1,
    ((one_submission_in_flight inFlightSys inFlightSys_reachable).2.2.1
      ⟨"p1", sampleTransaction,
        by rw [inFlightSys_pending.1]; exact List.mem_singleton.mpr rfl⟩).2.2.2.2⟩

/-- The handler itself has no busy check: called directly in a state whose busy
flag is set, it goes to the network. -/
theorem handler_ignores_busy_flag :
    (handleLogTransaction busyState sampleEnv).requests.head?
      = some (Request.getProduct "p1") := by
  rw [handleLogTransaction_of_valid busyState sampleEnv sampleState_valid]
  exact submitBody_first_request busyState sampleEnv

/-- A submission started and completed at once is the handler run to completion. -/
theorem handle_submit_settle (s : State) (env : SubmitEnv) (h : ValidSubmit s) :
    submitSettle (s.selectedProductId.getD "") s.transaction env (submitStart s)
      = (handleLogTransaction s env).state := by
  rw [handleLogTransaction_of_valid s env h]
  rfl

/-! ## Overlapping selections (C14) -/

/-- The search handler does not touch the selection. -/
theorem handleSearch_selectedProductId (lc : LowerCase) (s : State) (q : String) :
    (handleSearch lc s q).selectedProductId = s.selectedProductId := by
  unfold handleSearch
  split <;> rfl

/-- Every step keeps the calls in flight scoped to the selection. -/
theorem Scoped_step (sys : Sys) (e : Event) (hs : sys.Serial) (h : sys.Scoped) :
    (sys.step e).Scoped := by
  have hser := Serial_step sys e hs
  unfold Sys.step at hser ⊢
  split
  · next hen =>
    rw [if_pos hen] at hser
    cases e with
    | clickProduct productId =>
      have hl : sys.ui.loading = false := by
        simp only [Sys.enabled, productListVisible, Bool.and_eq_true, Bool.not_eq_true',
          decide_eq_true_eq] at hen
        exact hen.1.1
      have hnil := pending_nil_of_idle sys hs hl
      intro other hmem
      simp only [Sys.handle, hnil, List.nil_append, List.mem_singleton,
        Pending.logs.injEq] at hmem
      rw [hmem]
      rfl
    | search lc value =>
      intro other hmem
      have := h other hmem
      simpa [Sys.handle, handleSearch_selectedProductId] using this
    | edit transaction =>
      intro other hmem
      exact h other hmem
    | submit =>
      have hl : sys.ui.loading = false := by
        simp only [Sys.enabled, submitDisabled, Bool.and_eq_true, Bool.not_eq_true'] at hen
        exact hen.2
      have hnil := pending_nil_of_idle sys hs hl
      intro other hmem
      simp only [Sys.handle] at hmem
      split at hmem
      · rw [hnil] at hmem
        simp at hmem
      · simp [hnil] at hmem
    | productsSettled r =>
      simp only [Sys.enabled, decide_eq_true_eq] at hen
      intro other hmem
      rcases hs with hs | ⟨c, hs, -⟩
      · rw [hs] at hen
        simp at hen
      · simp only [Sys.handle, hs] at hmem
        rw [hs] at hen
        obtain rfl : Pending.products = c := by simpa using hen
        simp at hmem
    | logsSettled productId env =>
      simp only [Sys.enabled, decide_eq_true_eq] at hen
      intro other hmem
      rcases hs with hs | ⟨c, hs, -⟩
      · rw [hs] at hen
        simp at hen
      · simp only [Sys.handle, hs] at hmem
        rw [hs] at hen
        obtain rfl : Pending.logs productId = c := by simpa using hen
        simp at hmem
    | submitSettled productId transaction env =>
      simp only [Sys.enabled, decide_eq_true_eq] at hen
      intro other hmem
      rcases hs with hs | ⟨c, hs, -⟩
      · rw [hs] at hen
        simp at hen
      · simp only [Sys.handle, hs] at hmem
        rw [hs] at hen
        obtain rfl : Pending.submit productId transaction = c := by simpa using hen
        simp at hmem
  · exact h

/-- In every reachable state the calls in flight are scoped to the selection. -/
theorem Scoped_of_reachable (sys : Sys) (h : Reachable sys) : sys.Scoped := by
  induction h with
  | mounted =>
    intro other hmem
    simp [Sys.mounted] at hmem
  | step sys e hr ih => exact Scoped_step sys e (Serial_of_reachable sys hr) ih

/-- C14: in every state the mounted component can reach in which the log fetch
started for a product A has not resolved, A is the selected product and its
fetch is the only call in flight; no product button can be clicked (the list is
not rendered while the busy flag of the fetch is set), so no product B can be
selected before the fetch for A resolves; no completion of a fetch for another
product can arrive; and when the fetch for A resolves with a log list, that
list is displayed with A still the selected product.  So a log list is only
ever stored for the product selected at that moment, the last one selected,
and no state that displays the logs of A, stored by a delayed response, while
B is the selected product can be reached. -/
theorem selection_scoped_logs (sys : Sys) (a : String) (h : Reachable sys)
    (ha : Pending.logs a ∈ sys.pending) :
    sys.ui.selectedProductId = some a ∧
      sys.pending = [Pending.logs a] ∧
      (∀ b, sys.enabled (Event.clickProduct b) = false ∧
        sys.step (Event.clickProduct b) = sys) ∧
      (∀ b env, b ≠ a → sys.step (Event.logsSettled b env) = sys) ∧
      ∀ env logs, fetchLogsResult env = some logs →
        (sys.step (Event.logsSettled a env)).ui.logs = logs ∧
        (sys.step (Event.logsSettled a env)).ui.selectedProductId = some a ∧
        (sys.step (Event.logsSettled a env)).pending = [] := by
  have hsel := Scoped_of_reachable sys h a ha
  have hpend : sys.pending = [Pending.logs a] ∧ sys.ui.loading = true := by
    rcases Serial_of_reachable sys h with hs | ⟨c, hs, hl⟩
    · rw [hs] at ha
      simp at ha
    · rw [hs] at ha
      obtain rfl : Pending.logs a = c := by simpa using ha
      exact ⟨hs, hl⟩
  obtain ⟨hp, hl⟩ := hpend
  refine ⟨hsel, hp, ?_, ?_, ?_⟩
  · intro b
    have hen : sys.enabled (Event.clickProduct b) = false := by
      simp [Sys.enabled, productListVisible, hl]
    exact ⟨hen, by simp [Sys.step, hen]⟩
  · intro b env hb
    have hen : sys.enabled (Event.logsSettled b env) = false := by
      simp [Sys.enabled, hp, hb]
    simp [Sys.step, hen]
  · intro env logs hres
    have hen : sys.enabled (Event.logsSettled a env) = true := by
      simp [Sys.enabled, hp]
    have hstep : sys.step (Event.logsSettled a env)
        = { sys with ui := { sys.ui with logs := logs, loading := false },
                     pending := [Pending.logs a].erase (Pending.logs a),
                     requests := sys.requests ++ (fetchLogsRequests a env).tail } := by
      simp only [Sys.step, hen, if_true, Sys.handle, fetchLogsSettle, hres, hp]
    rw [hstep]
    exact ⟨rfl, hsel, by simp⟩

/-- The sample run with the fetch for product p1 in flight is reachable. -/
theorem fetchingSys_reachable : Reachable fetchingSys :=
  Reachable.step _ _ (Reachable.step _ _ Reachable.mounted)

/-- The sample run with the fetch for product p1 in flight: product p2 is
listed, and its button is not rendered. -/
theorem fetchingSys_pending :
    fetchingSys.pending = [Pending.logs "p1"] ∧
      otherProduct ∈ fetchingSys.ui.filteredProducts ∧
      productListVisible fetchingSys.ui = false := by
  refine ⟨?_, ?_, ?_⟩ <;> decide

/-- Witness for C14: with the fetch for p1 in flight a click on p2 changes
nothing, and the fetch resolving displays the rows of p1 with p1 selected. -/
theorem selection_scoped_logs_witness :
    Reachable fetchingSys ∧ Pending.logs "p1" ∈ fetchingSys.pending ∧
      fetchingSys.ui.selectedProductId = some "p1" ∧
      fetchingSys.step (Event.clickProduct "p2") = fetchingSys ∧
      (fetchingSys.step (Event.logsSettled "p1" sampleLogsEnv)).ui.logs = [sampleLog] ∧
      (fetchingSys.step (Event.logsSettled "p1" sampleLogsEnv)).ui.selectedProductId
        = some "p1" :=
  ⟨fetchingSys_reachable, by rw [fetchingSys_pending.1]; exact List.mem_singleton.mpr rfl,
    (selection_scoped_logs fetchingSys "p1" fetchingSys_reachable
      (by rw [fetchingSys_pending.1]; exact List.mem_singleton.mpr rfl)).1,
    ((selection_scoped_logs fetchingSys "p1" fetchingSys_reachable
      (by rw [fetchingSys_pending.1]; exact List.mem_singleton.mpr rfl)).2.2.1 "p2").2,
    ((selection_scoped_logs fetchingSys "p1" fetchingSys_reachable
      (by rw [fetchingSys_pending.1]; exact List.mem_singleton.mpr rfl)).2.2.2.2
        sampleLogsEnv [sampleLog] rfl).1,
    ((selection_scoped_logs fetchingSys "p1" fetchingSys_reachable
      (by rw [fetchingSys_pending.1]; exact List.mem_singleton.mpr rfl)).2.2.2.2
        sampleLogsEnv [sampleLog] rfl).2.1⟩

/-- The guard is in the page, not in `fetchLogs`: the handlers called directly
(past the rendering) in the order select p1, select p2, fetch for p2 resolves,
fetch for p1 resolves, leave the rows of p1 displayed with p2 selected. -/
theorem fetchLogs_ignores_selection :
    (listedSys.handleAll [Event.clickProduct "p1", Event.clickProduct "p2",
        Event.logsSettled "p2" otherLogsEnv, Event.logsSettled "p1" sampleLogsEnv]).ui.selectedProductId
        = some "p2" ∧
      (listedSys.handleAll [Event.clickProduct "p1", Event.clickProduct "p2",
        Event.logsSettled "p2" otherLogsEnv, Event.logsSettled "p1" sampleLogsEnv]).ui.logs
        = [sampleLog] :=
  ⟨by decide, rfl⟩

end ProductInventory
